import Mathlib

/-!
Verification development for the semantic-analysis core of a VHDL static
analyzer.  The first part (namespace `vhdl.ast`) is a shallow embedding of
the generic AST traversal framework of `src/vhdl_parser/src/ast/search.rs`:
the `SearchResult` / `SearchState` types, the `Searcher` hook set, the
`Search` implementations for each node kind, and the `ReferenceSearcher`.
Rust mutable-searcher methods (`&mut self`) are embedded as explicit state
passing: a hook of type `sigma -> node -> sigma * SearchState T`.

The second part (namespace `vhdl.analysis`) models the library resolver and
the query layer.  That code is not part of the sources at hand (only its
tests are), so it is modelled from the specification, as marked on each
definition.
-/

namespace vhdl
namespace ast

/-- Identity of a source file; two positions in different sources differ. -/
abbrev Source := Nat

/-- `SrcPos` of the position model: a byte range, `start` plus `length`,
within one source file. -/
structure SrcPos where
  source : Source
  start : Nat
  length : Nat
deriving DecidableEq, Repr

/-- The `end()` method of `SrcPos`: one past the last character. -/
def SrcPos.endPos (p : SrcPos) : Nat := p.start + p.length

/-- `SearchResult<T>` of `search.rs`. -/
inductive SearchResult (T : Type) where
  | Found : T → SearchResult T
  | NotFound : SearchResult T
deriving DecidableEq, Repr

/-- The `Into<Option<T>>` conversion of `SearchResult<T>`. -/
def SearchResult.into {T : Type} : SearchResult T → Option T
  | .Found value => some value
  | .NotFound => none

/-- `SearchState<T>` of `search.rs`. -/
inductive SearchState (T : Type) where
  | Finished : SearchResult T → SearchState T
  | NotFinished : SearchState T
deriving DecidableEq, Repr

/-- `SearchState::or_else`, with the searcher state threaded explicitly:
the first argument is the pair (state after the hook, hook answer). -/
def SearchState.or_else {σ T : Type} (self : σ × SearchState T)
    (nested_fun : σ → σ × SearchResult T) : σ × SearchResult T :=
  match self with
  | (s, SearchState.Finished result) => (s, result)
  | (s, SearchState.NotFinished) => nested_fun s

/-- `SearchState::or_not_found`. -/
def SearchState.or_not_found {σ T : Type} (self : σ × SearchState T) :
    σ × SearchResult T :=
  SearchState.or_else self (fun s => (s, SearchResult.NotFound))

/-- The `return_if!` macro of `search.rs`: propagate `Found`, otherwise
continue with the rest of the body from the current state. -/
def return_if {σ T : Type} (r : σ × SearchResult T)
    (rest : σ → σ × SearchResult T) : σ × SearchResult T :=
  match r with
  | (s, SearchResult.Found value) => (s, SearchResult.Found value)
  | (s, SearchResult.NotFound) => rest s

/-- `Designator` of the AST (identifier, operator symbol or character). -/
inductive Designator where
  | Identifier : String → Designator
  | OperatorSymbol : String → Designator
  | Character : Nat → Designator
deriving DecidableEq, Repr

/-- `WithPos<U>`: an AST item tagged with its source position. -/
structure WithPos (U : Type) where
  item : U
  pos : SrcPos
deriving DecidableEq, Repr

/-- `WithRef<U>`: a name occurrence with its optional resolved position. -/
structure WithRef (U : Type) where
  item : U
  reference : Option SrcPos
deriving DecidableEq, Repr

/-- `SelectedName`: a designator or a selected (dotted) name.  The first
argument of `Selected` is the prefix name. -/
inductive SelectedName where
  | Selected : WithPos SelectedName → WithPos (WithRef Designator) → SelectedName
  | Designator : WithRef Designator → SelectedName

/-- `SubtypeIndication`; only its `type_mark` is searched. -/
structure SubtypeIndication where
  type_mark : SelectedName

/-- `ObjectDeclaration`; only its `subtype_indication` is searched. -/
structure ObjectDeclaration where
  subtype_indication : SubtypeIndication

/-- `ElementDeclaration` of a record type; `subtype` is its searched field. -/
structure ElementDeclaration where
  subtype : SubtypeIndication

mutual

/-- `Declaration`; the variants searched by `search.rs` plus `Other` for
the unsearched ones (matched by `_` in the source). -/
inductive Declaration where
  | Object : ObjectDeclaration → Declaration
  | TypeDecl : TypeDeclaration → Declaration
  | SubprogramBody : SubprogramBodyDecl → Declaration
  | SubprogramDeclaration : SubprogramDeclaration → Declaration
  | Other : Declaration

/-- `TypeDeclaration`, carrying its `def` field. -/
inductive TypeDeclaration where
  | mk : TypeDefinition → TypeDeclaration

/-- `TypeDefinition`; variants searched by `search.rs` plus `Other`. -/
inductive TypeDefinition where
  | ProtectedBody : List Declaration → TypeDefinition
  | Protected : List ProtectedTypeDeclarativeItem → TypeDefinition
  | Record : List ElementDeclaration → TypeDefinition
  | Access : SubtypeIndication → TypeDefinition
  | Array : SubtypeIndication → TypeDefinition
  | Subtype : SubtypeIndication → TypeDefinition
  | Other : TypeDefinition

/-- `ProtectedTypeDeclarativeItem` (subprograms only). -/
inductive ProtectedTypeDeclarativeItem where
  | Subprogram : SubprogramDeclaration → ProtectedTypeDeclarativeItem

/-- `SubprogramBody`: its `specification` and nested `declarations`
(the searched fields). -/
inductive SubprogramBodyDecl where
  | mk : SubprogramDeclaration → List Declaration → SubprogramBodyDecl

/-- `SubprogramDeclaration`: function or procedure. -/
inductive SubprogramDeclaration where
  | Function : FunctionSpecification → SubprogramDeclaration
  | Procedure : ProcedureSpecification → SubprogramDeclaration

/-- `FunctionSpecification`: parameter list and return type mark. -/
inductive FunctionSpecification where
  | mk : List InterfaceDeclaration → SelectedName → FunctionSpecification

/-- `ProcedureSpecification`: parameter list. -/
inductive ProcedureSpecification where
  | mk : List InterfaceDeclaration → ProcedureSpecification

/-- `InterfaceDeclaration`; variants searched by `search.rs` plus `Other`. -/
inductive InterfaceDeclaration where
  | Object : ObjectDeclaration → InterfaceDeclaration
  | Subprogram : SubprogramDeclaration → InterfaceDeclaration
  | Other : InterfaceDeclaration

end

/-- The `specification` field of a subprogram body. -/
def SubprogramBodyDecl.specification : SubprogramBodyDecl → SubprogramDeclaration
  | .mk spec _ => spec

/-- The `declarations` field of a subprogram body. -/
def SubprogramBodyDecl.declarations : SubprogramBodyDecl → List Declaration
  | .mk _ decls => decls

/-- The `def` field of a type declaration. -/
def TypeDeclaration.def_ : TypeDeclaration → TypeDefinition
  | .mk td => td

/-- The `parameter_list` of a function specification. -/
def FunctionSpecification.parameter_list : FunctionSpecification → List InterfaceDeclaration
  | .mk params _ => params

/-- The `return_type` of a function specification. -/
def FunctionSpecification.return_type : FunctionSpecification → SelectedName
  | .mk _ ret => ret

/-- The `parameter_list` of a procedure specification. -/
def ProcedureSpecification.parameter_list : ProcedureSpecification → List InterfaceDeclaration
  | .mk params => params

/-- A sequential statement with label; `search.rs` only offers it to the
`search_labeled_sequential_statement` hook and never recurses into it, so
its payload is opaque here. -/
structure LabeledSequentialStatement where
  tag : Nat
deriving DecidableEq, Repr

mutual

/-- A concurrent statement with label; the label is not searched. -/
inductive LabeledConcurrentStatement where
  | mk : ConcurrentStatement → LabeledConcurrentStatement

/-- `ConcurrentStatement`; the variants searched by `search.rs` plus
`Other` for the arms covered by the `@TODO not searched` default
(instantiation statements among them). -/
inductive ConcurrentStatement where
  | Block : BlockStatement → ConcurrentStatement
  | Process : ProcessStatement → ConcurrentStatement
  | ForGenerate : ForGenerateStatement → ConcurrentStatement
  | IfGenerate : IfGenerateStatement → ConcurrentStatement
  | CaseGenerate : CaseGenerateStatement → ConcurrentStatement
  | Other : ConcurrentStatement

/-- A block statement: `decl` then `statements`. -/
inductive BlockStatement where
  | mk : List Declaration → List LabeledConcurrentStatement → BlockStatement

/-- A process statement: `decl` then sequential `statements`. -/
inductive ProcessStatement where
  | mk : List Declaration → List LabeledSequentialStatement → ProcessStatement

/-- A for-generate statement: its `body`. -/
inductive ForGenerateStatement where
  | mk : GenerateBody → ForGenerateStatement

/-- An if-generate statement: the `item` of each conditional, then the
optional `else_item`.  Conditions themselves are not searched. -/
inductive IfGenerateStatement where
  | mk : List GenerateBody → Option GenerateBody → IfGenerateStatement

/-- A case-generate statement: the `item` of each alternative.  Choices
themselves are not searched. -/
inductive CaseGenerateStatement where
  | mk : List GenerateBody → CaseGenerateStatement

/-- `GenerateBody`: optional `decl` then `statements`. -/
inductive GenerateBody where
  | mk : Option (List Declaration) → List LabeledConcurrentStatement → GenerateBody

end

/-- The `statement` field of a labeled concurrent statement. -/
def LabeledConcurrentStatement.statement : LabeledConcurrentStatement → ConcurrentStatement
  | .mk stmt => stmt

/-- The `decl` field of a block. -/
def BlockStatement.decl : BlockStatement → List Declaration
  | .mk decls _ => decls

/-- The `statements` field of a block. -/
def BlockStatement.statements : BlockStatement → List LabeledConcurrentStatement
  | .mk _ stmts => stmts

/-- The `decl` field of a process. -/
def ProcessStatement.decl : ProcessStatement → List Declaration
  | .mk decls _ => decls

/-- The `statements` field of a process. -/
def ProcessStatement.statements : ProcessStatement → List LabeledSequentialStatement
  | .mk _ stmts => stmts

/-- The `body` field of a for-generate statement. -/
def ForGenerateStatement.body : ForGenerateStatement → GenerateBody
  | .mk b => b

/-- The `decl` field of a generate body. -/
def GenerateBody.decl : GenerateBody → Option (List Declaration)
  | .mk d _ => d

/-- The `statements` field of a generate body. -/
def GenerateBody.statements : GenerateBody → List LabeledConcurrentStatement
  | .mk _ stmts => stmts

/-- The `Searcher<T>` trait of `search.rs`: one optional hook per node
kind, each defaulting to `NotFinished`.  A Rust searcher owns mutable
state; here the state has type `σ` and is threaded through every hook. -/
structure Searcher (σ T : Type) where
  search_labeled_concurrent_statement : σ → LabeledConcurrentStatement → σ × SearchState T :=
    fun s _ => (s, SearchState.NotFinished)
  search_labeled_sequential_statement : σ → LabeledSequentialStatement → σ × SearchState T :=
    fun s _ => (s, SearchState.NotFinished)
  search_declaration : σ → Declaration → σ × SearchState T :=
    fun s _ => (s, SearchState.NotFinished)
  search_interface_declaration : σ → InterfaceDeclaration → σ × SearchState T :=
    fun s _ => (s, SearchState.NotFinished)
  search_subtype_indication : σ → SubtypeIndication → σ × SearchState T :=
    fun s _ => (s, SearchState.NotFinished)
  search_designator_ref : σ → WithRef Designator → σ × SearchState T :=
    fun s _ => (s, SearchState.NotFinished)
  search_with_pos : σ → SrcPos → σ × SearchState T :=
    fun s _ => (s, SearchState.NotFinished)
  search_source : σ → Source → σ × SearchState T :=
    fun s _ => (s, SearchState.NotFinished)

/-- `impl Search for LabeledSequentialStatement`: offer the statement to
the hook, otherwise `NotFound` (no recursion into it). -/
def LabeledSequentialStatement.search {σ T : Type} (S : Searcher σ T)
    (stmt : LabeledSequentialStatement) (s : σ) : σ × SearchResult T :=
  SearchState.or_else (S.search_labeled_sequential_statement s stmt)
    (fun s1 => (s1, SearchResult.NotFound))

/-- `impl Search for Vec<LabeledSequentialStatement>`. -/
def LabeledSequentialStatement.searchList {σ T : Type} (S : Searcher σ T) :
    List LabeledSequentialStatement → σ → σ × SearchResult T
  | [], s => (s, SearchResult.NotFound)
  | x :: xs, s =>
    match LabeledSequentialStatement.search S x s with
    | (s1, SearchResult.Found value) => (s1, SearchResult.Found value)
    | (s1, SearchResult.NotFound) => LabeledSequentialStatement.searchList S xs s1

/-- `impl Search for WithRef<Designator>`: offer the designator to the
`search_designator_ref` hook, otherwise `NotFound`. -/
def WithRefDesignator.search {σ T : Type} (S : Searcher σ T)
    (d : WithRef Designator) (s : σ) : σ × SearchResult T :=
  SearchState.or_else (S.search_designator_ref s d)
    (fun s1 => (s1, SearchResult.NotFound))

/-- `impl Search for WithPos<U>`: offer the position to the
`search_with_pos` hook, otherwise search the item (`f` is the item search
of `U`). -/
def WithPos.search {σ T U : Type} (f : U → σ → σ × SearchResult T)
    (S : Searcher σ T) (x : WithPos U) (s : σ) : σ × SearchResult T :=
  SearchState.or_else (S.search_with_pos s x.pos) (fun s1 => f x.item s1)

mutual

/-- `impl Search for SelectedName`. -/
def SelectedName.search {σ T : Type} (S : Searcher σ T) :
    SelectedName → σ → σ × SearchResult T
  | SelectedName.Selected pfx designator, s =>
    match SelectedName.searchPos S pfx s with
    | (s1, SearchResult.Found value) => (s1, SearchResult.Found value)
    | (s1, SearchResult.NotFound) =>
      match WithPos.search (WithRefDesignator.search S) S designator s1 with
      | (s2, SearchResult.Found value) => (s2, SearchResult.Found value)
      | (s2, SearchResult.NotFound) => (s2, SearchResult.NotFound)
  | SelectedName.Designator designator, s =>
    SearchState.or_not_found (S.search_designator_ref s designator)

/-- `impl Search for WithPos<SelectedName>` (instance of the generic
`WithPos` search, inlined for the recursive prefix of a selected name). -/
def SelectedName.searchPos {σ T : Type} (S : Searcher σ T) :
    WithPos SelectedName → σ → σ × SearchResult T
  | x, s =>
    match S.search_with_pos s x.pos with
    | (s1, SearchState.Finished result) => (s1, result)
    | (s1, SearchState.NotFinished) => SelectedName.search S x.item s1

end

/-- `impl Search for SubtypeIndication`: offer to the hook, otherwise
search the type mark. -/
def SubtypeIndication.search {σ T : Type} (S : Searcher σ T)
    (si : SubtypeIndication) (s : σ) : σ × SearchResult T :=
  SearchState.or_else (S.search_subtype_indication s si)
    (fun s1 =>
      match SelectedName.search S si.type_mark s1 with
      | (s2, SearchResult.Found value) => (s2, SearchResult.Found value)
      | (s2, SearchResult.NotFound) => (s2, SearchResult.NotFound))

/-- The record-element loop of `impl Search for TypeDeclaration`. -/
def ElementDeclaration.searchList {σ T : Type} (S : Searcher σ T) :
    List ElementDeclaration → σ → σ × SearchResult T
  | [], s => (s, SearchResult.NotFound)
  | elem :: elems, s =>
    match SubtypeIndication.search S elem.subtype s with
    | (s1, SearchResult.Found value) => (s1, SearchResult.Found value)
    | (s1, SearchResult.NotFound) => ElementDeclaration.searchList S elems s1

mutual

/-- `impl Search for Declaration`: offer to the `search_declaration` hook,
otherwise recurse into the children of the matching variant. -/
def Declaration.search {σ T : Type} (S : Searcher σ T) :
    Declaration → σ → σ × SearchResult T
  | d, s =>
    match S.search_declaration s d with
    | (s1, SearchState.Finished result) => (s1, result)
    | (s1, SearchState.NotFinished) =>
      match d with
      | Declaration.Object object => SubtypeIndication.search S object.subtype_indication s1
      | Declaration.TypeDecl typ => TypeDeclaration.search S typ s1
      | Declaration.SubprogramBody body =>
        match body with
        | SubprogramBodyDecl.mk spec decls =>
          match SubprogramDeclaration.search S spec s1 with
          | (s2, SearchResult.Found value) => (s2, SearchResult.Found value)
          | (s2, SearchResult.NotFound) =>
            match Declaration.searchList S decls s2 with
            | (s3, SearchResult.Found value) => (s3, SearchResult.Found value)
            | (s3, SearchResult.NotFound) => (s3, SearchResult.NotFound)
      | Declaration.SubprogramDeclaration decl =>
        match SubprogramDeclaration.search S decl s1 with
        | (s2, SearchResult.Found value) => (s2, SearchResult.Found value)
        | (s2, SearchResult.NotFound) => (s2, SearchResult.NotFound)
      | Declaration.Other => (s1, SearchResult.NotFound)

/-- `impl Search for Vec<Declaration>`. -/
def Declaration.searchList {σ T : Type} (S : Searcher σ T) :
    List Declaration → σ → σ × SearchResult T
  | [], s => (s, SearchResult.NotFound)
  | x :: xs, s =>
    match Declaration.search S x s with
    | (s1, SearchResult.Found value) => (s1, SearchResult.Found value)
    | (s1, SearchResult.NotFound) => Declaration.searchList S xs s1

/-- `impl Search for TypeDeclaration` (no hook of its own; dispatch on the
type definition). -/
def TypeDeclaration.search {σ T : Type} (S : Searcher σ T) :
    TypeDeclaration → σ → σ × SearchResult T
  | TypeDeclaration.mk td, s =>
    match td with
    | TypeDefinition.ProtectedBody decls =>
      match Declaration.searchList S decls s with
      | (s1, SearchResult.Found value) => (s1, SearchResult.Found value)
      | (s1, SearchResult.NotFound) => (s1, SearchResult.NotFound)
    | TypeDefinition.Protected items => ProtectedTypeDeclarativeItem.searchList S items s
    | TypeDefinition.Record elems =>
      match ElementDeclaration.searchList S elems s with
      | (s1, SearchResult.Found value) => (s1, SearchResult.Found value)
      | (s1, SearchResult.NotFound) => (s1, SearchResult.NotFound)
    | TypeDefinition.Access si =>
      match SubtypeIndication.search S si s with
      | (s1, SearchResult.Found value) => (s1, SearchResult.Found value)
      | (s1, SearchResult.NotFound) => (s1, SearchResult.NotFound)
    | TypeDefinition.Array si =>
      match SubtypeIndication.search S si s with
      | (s1, SearchResult.Found value) => (s1, SearchResult.Found value)
      | (s1, SearchResult.NotFound) => (s1, SearchResult.NotFound)
    | TypeDefinition.Subtype si =>
      match SubtypeIndication.search S si s with
      | (s1, SearchResult.Found value) => (s1, SearchResult.Found value)
      | (s1, SearchResult.NotFound) => (s1, SearchResult.NotFound)
    | TypeDefinition.Other => (s, SearchResult.NotFound)

/-- The protected-items loop of `impl Search for TypeDeclaration`. -/
def ProtectedTypeDeclarativeItem.searchList {σ T : Type} (S : Searcher σ T) :
    List ProtectedTypeDeclarativeItem → σ → σ × SearchResult T
  | [], s => (s, SearchResult.NotFound)
  | ProtectedTypeDeclarativeItem.Subprogram sub :: items, s =>
    match SubprogramDeclaration.search S sub s with
    | (s1, SearchResult.Found value) => (s1, SearchResult.Found value)
    | (s1, SearchResult.NotFound) => ProtectedTypeDeclarativeItem.searchList S items s1

/-- `impl Search for SubprogramDeclaration`. -/
def SubprogramDeclaration.search {σ T : Type} (S : Searcher σ T) :
    SubprogramDeclaration → σ → σ × SearchResult T
  | SubprogramDeclaration.Function decl, s =>
    match FunctionSpecification.search S decl s with
    | (s1, SearchResult.Found value) => (s1, SearchResult.Found value)
    | (s1, SearchResult.NotFound) => (s1, SearchResult.NotFound)
  | SubprogramDeclaration.Procedure decl, s =>
    match ProcedureSpecification.search S decl s with
    | (s1, SearchResult.Found value) => (s1, SearchResult.Found value)
    | (s1, SearchResult.NotFound) => (s1, SearchResult.NotFound)

/-- `impl Search for FunctionSpecification`: parameter list, then return
type. -/
def FunctionSpecification.search {σ T : Type} (S : Searcher σ T) :
    FunctionSpecification → σ → σ × SearchResult T
  | FunctionSpecification.mk params ret, s =>
    match InterfaceDeclaration.searchList S params s with
    | (s1, SearchResult.Found value) => (s1, SearchResult.Found value)
    | (s1, SearchResult.NotFound) => SelectedName.search S ret s1

/-- `impl Search for ProcedureSpecification`: the parameter list. -/
def ProcedureSpecification.search {σ T : Type} (S : Searcher σ T) :
    ProcedureSpecification → σ → σ × SearchResult T
  | ProcedureSpecification.mk params, s => InterfaceDeclaration.searchList S params s

/-- `impl Search for InterfaceDeclaration`: offer to the hook, otherwise
recurse into the children of the matching variant. -/
def InterfaceDeclaration.search {σ T : Type} (S : Searcher σ T) :
    InterfaceDeclaration → σ → σ × SearchResult T
  | d, s =>
    match S.search_interface_declaration s d with
    | (s1, SearchState.Finished result) => (s1, result)
    | (s1, SearchState.NotFinished) =>
      match d with
      | InterfaceDeclaration.Object decl =>
        match SubtypeIndication.search S decl.subtype_indication s1 with
        | (s2, SearchResult.Found value) => (s2, SearchResult.Found value)
        | (s2, SearchResult.NotFound) => (s2, SearchResult.NotFound)
      | InterfaceDeclaration.Subprogram decl =>
        match SubprogramDeclaration.search S decl s1 with
        | (s2, SearchResult.Found value) => (s2, SearchResult.Found value)
        | (s2, SearchResult.NotFound) => (s2, SearchResult.NotFound)
      | InterfaceDeclaration.Other => (s1, SearchResult.NotFound)

/-- `impl Search for Vec<InterfaceDeclaration>`. -/
def InterfaceDeclaration.searchList {σ T : Type} (S : Searcher σ T) :
    List InterfaceDeclaration → σ → σ × SearchResult T
  | [], s => (s, SearchResult.NotFound)
  | x :: xs, s =>
    match InterfaceDeclaration.search S x s with
    | (s1, SearchResult.Found value) => (s1, SearchResult.Found value)
    | (s1, SearchResult.NotFound) => InterfaceDeclaration.searchList S xs s1

end

/-- `impl Search for Option<Vec<InterfaceDeclaration>>` (the `Option`
instance composed with the `Vec` instance, as used for generic and port
clauses). -/
def InterfaceDeclaration.searchOptList {σ T : Type} (S : Searcher σ T) :
    Option (List InterfaceDeclaration) → σ → σ × SearchResult T
  | none, s => (s, SearchResult.NotFound)
  | some xs, s => InterfaceDeclaration.searchList S xs s

mutual

/-- `impl Search for LabeledConcurrentStatement`: offer the statement to
the hook, otherwise recurse into the children of the matching variant; the
arms covered by `Other` are the `@TODO not searched` default of the
source. -/
def LabeledConcurrentStatement.search {σ T : Type} (S : Searcher σ T) :
    LabeledConcurrentStatement → σ → σ × SearchResult T
  | LabeledConcurrentStatement.mk cstmt, s =>
    match S.search_labeled_concurrent_statement s (LabeledConcurrentStatement.mk cstmt) with
    | (s1, SearchState.Finished result) => (s1, result)
    | (s1, SearchState.NotFinished) =>
        match cstmt with
        | ConcurrentStatement.Block block =>
          match block with
          | BlockStatement.mk decls stmts =>
            match Declaration.searchList S decls s1 with
            | (s2, SearchResult.Found value) => (s2, SearchResult.Found value)
            | (s2, SearchResult.NotFound) => LabeledConcurrentStatement.searchList S stmts s2
        | ConcurrentStatement.Process process =>
          match process with
          | ProcessStatement.mk decls stmts =>
            match Declaration.searchList S decls s1 with
            | (s2, SearchResult.Found value) => (s2, SearchResult.Found value)
            | (s2, SearchResult.NotFound) => LabeledSequentialStatement.searchList S stmts s2
        | ConcurrentStatement.ForGenerate gen =>
          match gen with
          | ForGenerateStatement.mk body => GenerateBody.search S body s1
        | ConcurrentStatement.IfGenerate gen =>
          match gen with
          | IfGenerateStatement.mk conditionals else_item =>
            match GenerateBody.searchItems S conditionals s1 with
            | (s2, SearchResult.Found value) => (s2, SearchResult.Found value)
            | (s2, SearchResult.NotFound) => GenerateBody.searchOpt S else_item s2
        | ConcurrentStatement.CaseGenerate gen =>
          match gen with
          | CaseGenerateStatement.mk alternatives => GenerateBody.searchItems S alternatives s1
        | ConcurrentStatement.Other => (s1, SearchResult.NotFound)

/-- `impl Search for Vec<LabeledConcurrentStatement>`. -/
def LabeledConcurrentStatement.searchList {σ T : Type} (S : Searcher σ T) :
    List LabeledConcurrentStatement → σ → σ × SearchResult T
  | [], s => (s, SearchResult.NotFound)
  | x :: xs, s =>
    match LabeledConcurrentStatement.search S x s with
    | (s1, SearchResult.Found value) => (s1, SearchResult.Found value)
    | (s1, SearchResult.NotFound) => LabeledConcurrentStatement.searchList S xs s1

/-- `impl Search for GenerateBody`: the optional declarations, then the
statements. -/
def GenerateBody.search {σ T : Type} (S : Searcher σ T) :
    GenerateBody → σ → σ × SearchResult T
  | GenerateBody.mk odecl stmts, s =>
    match odecl with
    | some decls =>
      match Declaration.searchList S decls s with
      | (s1, SearchResult.Found value) => (s1, SearchResult.Found value)
      | (s1, SearchResult.NotFound) => LabeledConcurrentStatement.searchList S stmts s1
    | none => LabeledConcurrentStatement.searchList S stmts s

/-- The conditional and alternative loops of if-generate and case-generate
statements: search the generate body of each item in turn. -/
def GenerateBody.searchItems {σ T : Type} (S : Searcher σ T) :
    List GenerateBody → σ → σ × SearchResult T
  | [], s => (s, SearchResult.NotFound)
  | body :: bodies, s =>
    match GenerateBody.search S body s with
    | (s1, SearchResult.Found value) => (s1, SearchResult.Found value)
    | (s1, SearchResult.NotFound) => GenerateBody.searchItems S bodies s1

/-- The `else_item` handling of an if-generate statement: search the body
when present, otherwise `NotFound`. -/
def GenerateBody.searchOpt {σ T : Type} (S : Searcher σ T) :
    Option GenerateBody → σ → σ × SearchResult T
  | some body, s => GenerateBody.search S body s
  | none, s => (s, SearchResult.NotFound)

end

/-- `EntityDeclaration`: the fields of an entity searched by `search.rs`
(the identifier itself is not offered to any hook by the walk). -/
structure EntityDeclaration where
  generic_clause : Option (List InterfaceDeclaration)
  port_clause : Option (List InterfaceDeclaration)
  decl : List Declaration
  statements : List LabeledConcurrentStatement

/-- An entity design unit: its source and its declaration. -/
structure EntityUnit where
  source : Source
  unit : EntityDeclaration

/-- `ArchitectureBody`: the searched fields of an architecture. -/
structure ArchitectureBody where
  decl : List Declaration
  statements : List LabeledConcurrentStatement

/-- An architecture design unit. -/
structure ArchitectureUnit where
  source : Source
  unit : ArchitectureBody

/-- `PackageDeclaration`: the searched fields of a package. -/
structure PackageDeclaration where
  generic_clause : Option (List InterfaceDeclaration)
  decl : List Declaration

/-- A package design unit. -/
structure PackageUnit where
  source : Source
  unit : PackageDeclaration

/-- `PackageBody`: the searched fields of a package body. -/
structure PackageBodyDeclaration where
  decl : List Declaration

/-- A package body design unit. -/
structure PackageBodyUnit where
  source : Source
  unit : PackageBodyDeclaration

/-- `PackageInstantiation`: the searched field of a package instance. -/
structure PackageInstantiation where
  package_name : WithPos SelectedName

/-- A package instance design unit. -/
structure PackageInstanceUnit where
  source : Source
  unit : PackageInstantiation

/-- `impl Search for EntityUnit` of `search.rs` (lines 302 to 312): offer
the source to the hook; otherwise generic clause, port clause,
declarations, statements, and then the declarations once more (the final
expression of the Rust block searches `self.unit.decl` again). -/
def EntityUnit.search {σ T : Type} (S : Searcher σ T) (u : EntityUnit)
    (s : σ) : σ × SearchResult T :=
  SearchState.or_else (S.search_source s u.source) (fun s0 =>
    return_if (InterfaceDeclaration.searchOptList S u.unit.generic_clause s0) (fun s1 =>
    return_if (InterfaceDeclaration.searchOptList S u.unit.port_clause s1) (fun s2 =>
    return_if (Declaration.searchList S u.unit.decl s2) (fun s3 =>
    return_if (LabeledConcurrentStatement.searchList S u.unit.statements s3) (fun s4 =>
    Declaration.searchList S u.unit.decl s4)))))

/-- `impl Search for ArchitectureUnit` (lines 314 to 322): source hook;
otherwise declarations, statements, then the declarations once more. -/
def ArchitectureUnit.search {σ T : Type} (S : Searcher σ T)
    (u : ArchitectureUnit) (s : σ) : σ × SearchResult T :=
  SearchState.or_else (S.search_source s u.source) (fun s0 =>
    return_if (Declaration.searchList S u.unit.decl s0) (fun s1 =>
    return_if (LabeledConcurrentStatement.searchList S u.unit.statements s1) (fun s2 =>
    Declaration.searchList S u.unit.decl s2)))

/-- `impl Search for PackageUnit` (lines 324 to 331): source hook;
otherwise generic clause then declarations. -/
def PackageUnit.search {σ T : Type} (S : Searcher σ T) (u : PackageUnit)
    (s : σ) : σ × SearchResult T :=
  SearchState.or_else (S.search_source s u.source) (fun s0 =>
    return_if (InterfaceDeclaration.searchOptList S u.unit.generic_clause s0) (fun s1 =>
    Declaration.searchList S u.unit.decl s1))

/-- `impl Search for PackageBodyUnit` (lines 333 to 339): source hook;
otherwise the declarations. -/
def PackageBodyUnit.search {σ T : Type} (S : Searcher σ T)
    (u : PackageBodyUnit) (s : σ) : σ × SearchResult T :=
  SearchState.or_else (S.search_source s u.source) (fun s0 =>
    Declaration.searchList S u.unit.decl s0)

/-- `impl Search for PackageInstanceUnit` (lines 341 to 347): source hook;
otherwise the name of the instantiated package. -/
def PackageInstanceUnit.search {σ T : Type} (S : Searcher σ T)
    (u : PackageInstanceUnit) (s : σ) : σ × SearchResult T :=
  SearchState.or_else (S.search_source s u.source) (fun s0 =>
    SelectedName.searchPos S u.unit.package_name s0)

/-- The `ReferenceSearcher` state: the source under query and the cursor
offset. -/
structure ReferenceSearcher where
  source : Source
  cursor : Nat
deriving DecidableEq, Repr

/-- `ReferenceSearcher::new`. -/
def ReferenceSearcher.new (source : Source) (cursor : Nat) : ReferenceSearcher :=
  { source := source, cursor := cursor }

/-- `impl Searcher<SrcPos> for ReferenceSearcher` of `search.rs` (lines
363 to 389): prune subtrees whose position does not contain the cursor
within start and end inclusively, prune units of another source, and stop
at a designator with the value of its reference slot. -/
def ReferenceSearcher.searcher : Searcher ReferenceSearcher SrcPos where
  search_with_pos := fun rs pos =>
    if pos.start ≤ rs.cursor ∧ rs.cursor ≤ pos.endPos then
      (rs, SearchState.NotFinished)
    else
      (rs, SearchState.Finished SearchResult.NotFound)
  search_designator_ref := fun rs designator =>
    match designator.reference with
    | some reference => (rs, SearchState.Finished (SearchResult.Found reference))
    | none => (rs, SearchState.Finished SearchResult.NotFound)
  search_source := fun rs source =>
    if source = rs.source then
      (rs, SearchState.NotFinished)
    else
      (rs, SearchState.Finished SearchResult.NotFound)

/-- A hook answer that does not finish the walk with a value. -/
def NeverFound {σ T : Type} (p : σ × SearchState T) : Prop :=
  ∀ value : T, p.2 ≠ SearchState.Finished (SearchResult.Found value)

/-- A searcher no hook of which ever answers with `Finished (Found _)` on
any node: the class of searchers used for exhaustive queries. -/
structure NeverFinds {σ T : Type} (S : Searcher σ T) : Prop where
  conc : ∀ s stmt, NeverFound (S.search_labeled_concurrent_statement s stmt)
  seq : ∀ s stmt, NeverFound (S.search_labeled_sequential_statement s stmt)
  decl : ∀ s d, NeverFound (S.search_declaration s d)
  iface : ∀ s d, NeverFound (S.search_interface_declaration s d)
  subtyp : ∀ s si, NeverFound (S.search_subtype_indication s si)
  desig : ∀ s d, NeverFound (S.search_designator_ref s d)
  withpos : ∀ s p, NeverFound (S.search_with_pos s p)
  src : ∀ s so, NeverFound (S.search_source s so)

/-- The structural default of the declaration walk: the body of the
closure passed to `or_else` in `impl Search for Declaration`, recursing
into the children of the matching variant. -/
def Declaration.searchChildren {σ T : Type} (S : Searcher σ T)
    (d : Declaration) (s1 : σ) : σ × SearchResult T :=
  match d with
  | Declaration.Object object => SubtypeIndication.search S object.subtype_indication s1
  | Declaration.TypeDecl typ => TypeDeclaration.search S typ s1
  | Declaration.SubprogramBody body =>
    match body with
    | SubprogramBodyDecl.mk spec decls =>
      match SubprogramDeclaration.search S spec s1 with
      | (s2, SearchResult.Found value) => (s2, SearchResult.Found value)
      | (s2, SearchResult.NotFound) =>
        match Declaration.searchList S decls s2 with
        | (s3, SearchResult.Found value) => (s3, SearchResult.Found value)
        | (s3, SearchResult.NotFound) => (s3, SearchResult.NotFound)
  | Declaration.SubprogramDeclaration decl =>
    match SubprogramDeclaration.search S decl s1 with
    | (s2, SearchResult.Found value) => (s2, SearchResult.Found value)
    | (s2, SearchResult.NotFound) => (s2, SearchResult.NotFound)
  | Declaration.Other => (s1, SearchResult.NotFound)

/-- The structural default of the concurrent-statement walk: the body of
the closure passed to `or_else` in
`impl Search for LabeledConcurrentStatement`. -/
def LabeledConcurrentStatement.searchChildren {σ T : Type} (S : Searcher σ T)
    (stmt : LabeledConcurrentStatement) (s1 : σ) : σ × SearchResult T :=
  match stmt with
  | LabeledConcurrentStatement.mk cstmt =>
    match cstmt with
    | ConcurrentStatement.Block block =>
      match block with
      | BlockStatement.mk decls stmts =>
        match Declaration.searchList S decls s1 with
        | (s2, SearchResult.Found value) => (s2, SearchResult.Found value)
        | (s2, SearchResult.NotFound) => LabeledConcurrentStatement.searchList S stmts s2
    | ConcurrentStatement.Process process =>
      match process with
      | ProcessStatement.mk decls stmts =>
        match Declaration.searchList S decls s1 with
        | (s2, SearchResult.Found value) => (s2, SearchResult.Found value)
        | (s2, SearchResult.NotFound) => LabeledSequentialStatement.searchList S stmts s2
    | ConcurrentStatement.ForGenerate gen =>
      match gen with
      | ForGenerateStatement.mk body => GenerateBody.search S body s1
    | ConcurrentStatement.IfGenerate gen =>
      match gen with
      | IfGenerateStatement.mk conditionals else_item =>
        match GenerateBody.searchItems S conditionals s1 with
        | (s2, SearchResult.Found value) => (s2, SearchResult.Found value)
        | (s2, SearchResult.NotFound) => GenerateBody.searchOpt S else_item s2
    | ConcurrentStatement.CaseGenerate gen =>
      match gen with
      | CaseGenerateStatement.mk alternatives => GenerateBody.searchItems S alternatives s1
    | ConcurrentStatement.Other => (s1, SearchResult.NotFound)

/-- A searcher over a counter state that counts the invocations of the
declaration hook and otherwise declines every node. -/
def declCountingSearcher : Searcher Nat Unit :=
  { search_declaration := fun s _ => (s + 1, SearchState.NotFinished) }

/-- A searcher over a counter state that counts the invocations of the
interface-declaration hook and otherwise declines every node. -/
def ifaceCountingSearcher : Searcher Nat Unit :=
  { search_interface_declaration := fun s _ => (s + 1, SearchState.NotFinished) }

/-- A sample designator name for concrete walks. -/
def sn0 : SelectedName :=
  SelectedName.Designator { item := Designator.Identifier "t", reference := none }

/-- A sample object declaration for concrete walks. -/
def obj0 : ObjectDeclaration := { subtype_indication := { type_mark := sn0 } }

/-- A sample searcher for concrete walks of declarations and concurrent
statements: it finishes with a value on the `Other` variants, prunes
object declarations, and declines everything else. -/
def sampleSearcher : Searcher Nat Nat :=
  { search_declaration := fun s d =>
      match d with
      | Declaration.Other => (s + 1, SearchState.Finished (SearchResult.Found 7))
      | Declaration.Object _ => (s + 1, SearchState.Finished SearchResult.NotFound)
      | _ => (s, SearchState.NotFinished),
    search_labeled_concurrent_statement := fun s stmt =>
      match stmt with
      | LabeledConcurrentStatement.mk ConcurrentStatement.Other =>
        (s + 1, SearchState.Finished (SearchResult.Found 9))
      | _ => (s, SearchState.NotFinished) }

/-- A concrete entity with one declaration and no statements, used to
observe the walk of an entity unit. -/
def entSample : EntityUnit :=
  { source := 0,
    unit := { generic_clause := none, port_clause := none,
              decl := [Declaration.Other], statements := [] } }

/-- A concrete architecture with one declaration and no statements. -/
def archSample : ArchitectureUnit :=
  { source := 0, unit := { decl := [Declaration.Other], statements := [] } }

/-- A concrete package with a generic clause of one interface declaration
and no declarations. -/
def pkgSample : PackageUnit :=
  { source := 0,
    unit := { generic_clause := some [InterfaceDeclaration.Other], decl := [] } }

/-- A concrete package body with one declaration. -/
def pkgBodySample : PackageBodyUnit :=
  { source := 0, unit := { decl := [Declaration.Other] } }

/-- A concrete package instance. -/
def pkgInstSample : PackageInstanceUnit :=
  { source := 0, unit := { package_name := { item := sn0, pos := ⟨0, 0, 1⟩ } } }

end ast

namespace analysis

open ast (Source SrcPos)

/-- Severity of a diagnostic: error or warning. -/
inductive Severity where
  | error : Severity
  | warning : Severity
deriving DecidableEq, Repr

/-- Modelled from the spec: the `Diagnostic` record exposed by the
analysis, severity plus position plus message. -/
structure Diagnostic where
  severity : Severity
  pos : SrcPos
  message : String
deriving DecidableEq, Repr

/-- The `Diagnostic::error` constructor used by the tests. -/
def Diagnostic.error (pos : SrcPos) (message : String) : Diagnostic :=
  { severity := Severity.error, pos := pos, message := message }

/-- A single-quote character as a string, used by diagnostic messages. -/
def sq : String := String.singleton (Char.ofNat 39)

/-- A name wrapped in single quotes, as diagnostic messages render it. -/
def quoted (s : String) : String := sq ++ s ++ sq

/-- Modelled from the spec: a plain name occurrence, its identifier text
and the position of the identifier. -/
structure NameOcc where
  ident : String
  pos : SrcPos
deriving DecidableEq, Repr

/-- Modelled from the spec: a designator-with-reference occurrence; the
resolver writes the `reference` slot. -/
structure RefOcc where
  ident : String
  pos : SrcPos
  reference : Option SrcPos
deriving DecidableEq, Repr

/-- Modelled from the spec: a possibly library-qualified entity name of a
configuration; `fullPos` spans the whole dotted name. -/
structure QualifiedName where
  library_name : Option String
  name : RefOcc
  fullPos : SrcPos
deriving DecidableEq, Repr

/-- Modelled from the spec: an entity declaration as the resolver sees it
(identifier and its position). -/
structure EntityDecl where
  ident : NameOcc
deriving DecidableEq, Repr

/-- Modelled from the spec: an entity instantiation statement inside an
architecture; `library_name` is the explicit target library, with `work`
denoting the current one. -/
structure InstStmt where
  library_name : String
  name : RefOcc
deriving DecidableEq, Repr

/-- Modelled from the spec: an architecture, its identifier, the name of
the entity it extends, and its entity instantiation statements. -/
structure ArchitectureDecl where
  ident : NameOcc
  entity_name : RefOcc
  instantiations : List InstStmt
deriving DecidableEq, Repr

/-- Modelled from the spec: a configuration and the possibly qualified
name of its entity. -/
structure ConfigurationDecl where
  ident : NameOcc
  entity_name : QualifiedName
deriving DecidableEq, Repr

/-- Modelled from the spec: a package declaration. -/
structure PackageDecl where
  ident : NameOcc
deriving DecidableEq, Repr

/-- Modelled from the spec: a package body; its identifier occurrence is
itself the reference to the package it extends. -/
structure PackageBodyDecl where
  ident : RefOcc
deriving DecidableEq, Repr

/-- Modelled from the spec: the design units the resolver distinguishes. -/
inductive AnyDesignUnit where
  | Entity : EntityDecl → AnyDesignUnit
  | Architecture : ArchitectureDecl → AnyDesignUnit
  | Configuration : ConfigurationDecl → AnyDesignUnit
  | Package : PackageDecl → AnyDesignUnit
  | PackageBody : PackageBodyDecl → AnyDesignUnit
deriving DecidableEq, Repr

/-- Modelled from the spec: a named library holding its design units in
declaration order. -/
structure Library where
  name : String
  units : List AnyDesignUnit
deriving DecidableEq, Repr

/-- Modelled from the spec: the set of libraries handed to `analyze`. -/
abbrev DesignRoot := List Library

/-- Modelled from the spec: the primary-unit index lookup for entities,
first declared match wins. -/
def findEntity (lib : Library) (name : String) : Option EntityDecl :=
  lib.units.findSome? fun u =>
    match u with
    | AnyDesignUnit.Entity e => if e.ident.ident = name then some e else none
    | _ => none

/-- Modelled from the spec: the primary-unit index lookup for packages. -/
def findPackage (lib : Library) (name : String) : Option PackageDecl :=
  lib.units.findSome? fun u =>
    match u with
    | AnyDesignUnit.Package p => if p.ident.ident = name then some p else none
    | _ => none

/-- Modelled from the spec: look a library up by name. -/
def findLibrary (root : DesignRoot) (name : String) : Option Library :=
  root.findSome? fun lib => if lib.name = name then some lib else none

/-- The possible outcomes of resolving the entity name of a
configuration. -/
inductive ConfigOutcome where
  | crossLibrary : ConfigOutcome
  | declaredAfter : EntityDecl → ConfigOutcome
  | noDeclaration : ConfigOutcome
  | resolved : EntityDecl → ConfigOutcome
deriving DecidableEq, Repr

/-- Modelled from the spec: the lookup part of configuration resolution;
a configuration found in the same source file but textually before its
entity is an ordering error. -/
def configLookup (lib : Library) (c : ConfigurationDecl) : ConfigOutcome :=
  match findEntity lib c.entity_name.name.ident with
  | none => ConfigOutcome.noDeclaration
  | some e =>
    if e.ident.pos.source = c.ident.pos.source ∧ c.ident.pos.start < e.ident.pos.start then
      ConfigOutcome.declaredAfter e
    else
      ConfigOutcome.resolved e

/-- Modelled from the spec: configuration resolution; an explicit foreign
library is a cross-library violation, `work` and the own library are
accepted, then the entity is looked up in the own library. -/
def configOutcome (lib : Library) (c : ConfigurationDecl) : ConfigOutcome :=
  match c.entity_name.library_name with
  | some l =>
    if l = "work" ∨ l = lib.name then configLookup lib c
    else ConfigOutcome.crossLibrary
  | none => configLookup lib c

/-- Modelled from the spec: the entity an architecture extends, resolved
in its own library. -/
def archEntity (lib : Library) (a : ArchitectureDecl) : Option EntityDecl :=
  findEntity lib a.entity_name.ident

/-- Modelled from the spec: the library an instantiation targets, with
`work` denoting the current library. -/
def instTargetLibrary (lib : Library) (i : InstStmt) : String :=
  if i.library_name = "work" then lib.name else i.library_name

/-- Modelled from the spec: the entity an instantiation statement binds
to. -/
def instEntity (root : DesignRoot) (lib : Library) (i : InstStmt) : Option EntityDecl :=
  match findLibrary root (instTargetLibrary lib i) with
  | some target => findEntity target i.name.ident
  | none => none

/-- Modelled from the spec: the diagnostics of one instantiation
statement. -/
def instDiags (root : DesignRoot) (lib : Library) (i : InstStmt) : List Diagnostic :=
  match instEntity root lib i with
  | some _ => []
  | none =>
    [Diagnostic.error i.name.pos
      ("No primary unit " ++ quoted i.name.ident ++ " within "
        ++ quoted (instTargetLibrary lib i))]

/-- Modelled from the spec: the occurrence registrations of one
instantiation statement. -/
def instRegs (root : DesignRoot) (lib : Library) (i : InstStmt) :
    List (SrcPos × SrcPos) :=
  match instEntity root lib i with
  | some e => [(i.name.pos, e.ident.pos)]
  | none => []

/-- Modelled from the spec: one instantiation statement with its
reference slot rewritten by the resolver. -/
def instUpdate (root : DesignRoot) (lib : Library) (i : InstStmt) : InstStmt :=
  { i with name :=
      { i.name with reference := (instEntity root lib i).map (fun e => e.ident.pos) } }

/-- Modelled from the spec: the diagnostics one design unit contributes;
failures are diagnostics only and never stop the remaining units or
statements. -/
def unitDiags (root : DesignRoot) (lib : Library) : AnyDesignUnit → List Diagnostic
  | AnyDesignUnit.Entity _ => []
  | AnyDesignUnit.Package _ => []
  | AnyDesignUnit.PackageBody b =>
    (match findPackage lib b.ident.ident with
     | some _ => []
     | none =>
       [Diagnostic.error b.ident.pos
         ("No primary unit " ++ quoted b.ident.ident ++ " within " ++ quoted lib.name)])
  | AnyDesignUnit.Architecture a =>
    (match archEntity lib a with
     | some _ => []
     | none =>
       [Diagnostic.error a.entity_name.pos
         ("No primary unit " ++ quoted a.entity_name.ident ++ " within "
           ++ quoted lib.name)])
    ++ (a.instantiations.map (instDiags root lib)).flatten
  | AnyDesignUnit.Configuration c =>
    (match configOutcome lib c with
     | ConfigOutcome.crossLibrary =>
       [Diagnostic.error c.entity_name.fullPos
         ("Configuration must be within the same library " ++ quoted lib.name
           ++ " as the corresponding entity")]
     | ConfigOutcome.declaredAfter e =>
       [Diagnostic.error c.ident.pos
         ("Configuration " ++ quoted c.ident.ident ++ " declared before entity "
           ++ quoted e.ident.ident)]
     | ConfigOutcome.noDeclaration =>
       [Diagnostic.error c.entity_name.name.pos
         ("No declaration of " ++ quoted c.entity_name.name.ident)]
     | ConfigOutcome.resolved _ => [])

/-- Modelled from the spec: the occurrence registrations one design unit
contributes; declarations register themselves, every resolved name
occurrence registers the position of its declaration. -/
def unitRegs (root : DesignRoot) (lib : Library) : AnyDesignUnit → List (SrcPos × SrcPos)
  | AnyDesignUnit.Entity e => [(e.ident.pos, e.ident.pos)]
  | AnyDesignUnit.Package p => [(p.ident.pos, p.ident.pos)]
  | AnyDesignUnit.PackageBody b =>
    (match findPackage lib b.ident.ident with
     | some p => [(b.ident.pos, p.ident.pos)]
     | none => [])
  | AnyDesignUnit.Architecture a =>
    (a.ident.pos, a.ident.pos) ::
      ((match archEntity lib a with
        | some e => [(a.entity_name.pos, e.ident.pos)]
        | none => [])
        ++ (a.instantiations.map (instRegs root lib)).flatten)
  | AnyDesignUnit.Configuration c =>
    (c.ident.pos, c.ident.pos) ::
      (match configOutcome lib c with
       | ConfigOutcome.resolved e => [(c.entity_name.name.pos, e.ident.pos)]
       | _ => [])

/-- Modelled from the spec: one design unit with every reference slot
rewritten to the outcome of this resolution pass. -/
def unitUpdate (root : DesignRoot) (lib : Library) : AnyDesignUnit → AnyDesignUnit
  | AnyDesignUnit.Entity e => AnyDesignUnit.Entity e
  | AnyDesignUnit.Package p => AnyDesignUnit.Package p
  | AnyDesignUnit.PackageBody b =>
    AnyDesignUnit.PackageBody
      { b with ident :=
          { b.ident with reference :=
              (findPackage lib b.ident.ident).map (fun p => p.ident.pos) } }
  | AnyDesignUnit.Architecture a =>
    AnyDesignUnit.Architecture
      { a with
          entity_name :=
            { a.entity_name with reference :=
                (archEntity lib a).map (fun e => e.ident.pos) },
          instantiations := a.instantiations.map (instUpdate root lib) }
  | AnyDesignUnit.Configuration c =>
    AnyDesignUnit.Configuration
      { c with entity_name :=
          { c.entity_name with name :=
              { c.entity_name.name with reference :=
                  (match configOutcome lib c with
                   | ConfigOutcome.resolved e => some e.ident.pos
                   | _ => none) } } }

/-- Modelled from the spec: the diagnostics of one library, unit by unit
in declaration order. -/
def libDiags (root : DesignRoot) (lib : Library) : List Diagnostic :=
  (lib.units.map (unitDiags root lib)).flatten

/-- Modelled from the spec: the registrations of one library. -/
def libRegs (root : DesignRoot) (lib : Library) : List (SrcPos × SrcPos) :=
  (lib.units.map (unitRegs root lib)).flatten

/-- Modelled from the spec: one library after the resolution pass. -/
def libUpdate (root : DesignRoot) (lib : Library) : Library :=
  { lib with units := lib.units.map (unitUpdate root lib) }

/-- Modelled from the spec: the `analyze` entry point, which is absent
from the sources at hand; it indexes all units first (the lookups read
the whole original root), then resolves unit by unit, producing the
diagnostic list and the root with every reference slot rewritten. -/
def analyze (root : DesignRoot) : List Diagnostic × DesignRoot :=
  ((root.map (libDiags root)).flatten, root.map (libUpdate root))

/-- Modelled from the spec: the registration table of all occurrence
resolutions of an analysis run. -/
def regs (root : DesignRoot) : List (SrcPos × SrcPos) :=
  (root.map (libRegs root)).flatten

/-- Modelled from the spec: resolve-reference-at-cursor, absent from the
sources at hand; it answers with the resolved position of the first
registered occurrence of the queried source whose span contains the
cursor inclusively at both ends, mirroring the bounds check of
`ReferenceSearcher::search_with_pos`. -/
def search_reference (root : DesignRoot) (source : Source) (cursor : Nat) :
    Option SrcPos :=
  (regs root).findSome? fun qr =>
    if qr.1.source = source ∧ qr.1.start ≤ cursor ∧ cursor ≤ qr.1.endPos then
      some qr.2
    else
      none

/-- Modelled from the spec: find-all-references, absent from the sources
at hand; the positions of all registered occurrences resolving to the
queried declaration position. -/
def find_all_references (root : DesignRoot) (p : SrcPos) : List SrcPos :=
  (regs root).filterMap fun qr => if qr.2 = p then some qr.1 else none

/-- Scenario A of the tests: the configuration `cfg` of `ent`, declared
at offset 15 of its file, naming `ent` unqualified at offset 22. -/
def cfgC3 : ConfigurationDecl :=
  { ident := { ident := "cfg", pos := ⟨0, 15, 3⟩ },
    entity_name := { library_name := none,
                     name := { ident := "ent", pos := ⟨0, 22, 3⟩, reference := none },
                     fullPos := ⟨0, 22, 3⟩ } }

/-- Scenario A: the entity `ent`, declared later in the same file at
offset 73. -/
def entC3 : EntityDecl := { ident := { ident := "ent", pos := ⟨0, 73, 3⟩ } }

/-- Scenario A: one library whose single file declares the configuration
textually before its entity. -/
def rootC3 : DesignRoot :=
  [{ name := "libname",
     units := [AnyDesignUnit.Configuration cfgC3, AnyDesignUnit.Entity entC3] }]

/-- Scenario C: the entity `ent` of library `lib2` (its own file is
source 0). -/
def entC5 : EntityDecl := { ident := { ident := "ent", pos := ⟨0, 8, 3⟩ } }

/-- Scenario C: the configuration `cfg` of `lib2.ent` inside library
`libname` (source 1); the full dotted name spans offsets 37 to 44. -/
def cfgC5 : ConfigurationDecl :=
  { ident := { ident := "cfg", pos := ⟨1, 30, 3⟩ },
    entity_name := { library_name := some "lib2",
                     name := { ident := "ent", pos := ⟨1, 42, 3⟩, reference := none },
                     fullPos := ⟨1, 37, 8⟩ } }

/-- Scenario C: the two libraries. -/
def rootC5 : DesignRoot :=
  [{ name := "lib2", units := [AnyDesignUnit.Entity entC5] },
   { name := "libname", units := [AnyDesignUnit.Configuration cfgC5] }]

/-- Scenario D: the entity `ename1` at offset 8 of the file. -/
def ename1C4 : EntityDecl := { ident := { ident := "ename1", pos := ⟨0, 8, 6⟩ } }

/-- Scenario D: the architecture of `ename1`, whose header names the
entity at offset 49. -/
def arch1C4 : ArchitectureDecl :=
  { ident := { ident := "a", pos := ⟨0, 44, 1⟩ },
    entity_name := { ident := "ename1", pos := ⟨0, 49, 6⟩, reference := none },
    instantiations := [] }

/-- Scenario D: the entity `ename2`. -/
def ename2C4 : EntityDecl := { ident := { ident := "ename2", pos := ⟨0, 91, 6⟩ } }

/-- Scenario D: the architecture of `ename2`, instantiating the missing
`work.missing` (identifier at offset 173) and then `work.ename1`
(identifier at offset 203). -/
def arch2C4 : ArchitectureDecl :=
  { ident := { ident := "a", pos := ⟨0, 127, 1⟩ },
    entity_name := { ident := "ename2", pos := ⟨0, 132, 6⟩, reference := none },
    instantiations :=
      [{ library_name := "work",
         name := { ident := "missing", pos := ⟨0, 173, 7⟩, reference := none } },
       { library_name := "work",
         name := { ident := "ename1", pos := ⟨0, 203, 6⟩, reference := none } }] }

/-- Scenario D: the single library with both entities and both
architectures in file order. -/
def rootC4 : DesignRoot :=
  [{ name := "libname",
     units := [AnyDesignUnit.Entity ename1C4, AnyDesignUnit.Architecture arch1C4,
               AnyDesignUnit.Entity ename2C4, AnyDesignUnit.Architecture arch2C4] }]

/-- Scenario E: the package `pkg` at offset 9. -/
def pkgE : PackageDecl := { ident := { ident := "pkg", pos := ⟨0, 9, 3⟩ } }

/-- Scenario E: the package body of `pkg`, whose identifier occurrence at
offset 43 references the package. -/
def bodyE : PackageBodyDecl :=
  { ident := { ident := "pkg", pos := ⟨0, 43, 3⟩, reference := none } }

/-- Scenario E: one library with the package and its body. -/
def rootE : DesignRoot :=
  [{ name := "libname",
     units := [AnyDesignUnit.Package pkgE, AnyDesignUnit.PackageBody bodyE] }]

end analysis

namespace ast

theorem NeverFound.finished_eq {σ T : Type} {p : σ × SearchState T}
    (h : NeverFound p) {s1 : σ} {r : SearchResult T}
    (heq : p = (s1, SearchState.Finished r)) : r = SearchResult.NotFound := by
  cases r with
  | Found value => exact absurd (by rw [heq]) (h value)
  | NotFound => rfl

theorem seqStatement_search_nf {σ T : Type} {S : Searcher σ T}
    (h : NeverFinds S) (stmt : LabeledSequentialStatement) (s : σ) :
    (LabeledSequentialStatement.search S stmt s).2 = SearchResult.NotFound := by
  unfold LabeledSequentialStatement.search SearchState.or_else
  split
  · rename_i s1 result heq
    exact (h.seq s stmt).finished_eq heq
  · rfl

theorem seqStatement_searchList_nf {σ T : Type} {S : Searcher σ T}
    (h : NeverFinds S) (stmts : List LabeledSequentialStatement) (s : σ) :
    (LabeledSequentialStatement.searchList S stmts s).2 = SearchResult.NotFound := by
  induction stmts generalizing s with
  | nil => rfl
  | cons x xs ih =>
    unfold LabeledSequentialStatement.searchList
    split
    · rename_i s1 value heq
      have := seqStatement_search_nf h x s
      rw [heq] at this
      exact absurd this (by simp)
    · rename_i s1 heq
      exact ih s1

theorem refDesignator_search_nf {σ T : Type} {S : Searcher σ T}
    (h : NeverFinds S) (d : WithRef Designator) (s : σ) :
    (WithRefDesignator.search S d s).2 = SearchResult.NotFound := by
  unfold WithRefDesignator.search SearchState.or_else
  split
  · rename_i s1 result heq
    exact (h.desig s d).finished_eq heq
  · rfl

theorem posRefDesignator_search_nf {σ T : Type} {S : Searcher σ T}
    (h : NeverFinds S) (x : WithPos (WithRef Designator)) (s : σ) :
    (WithPos.search (WithRefDesignator.search S) S x s).2 = SearchResult.NotFound := by
  unfold WithPos.search SearchState.or_else
  split
  · rename_i s1 result heq
    exact (h.withpos s x.pos).finished_eq heq
  · rename_i s1 heq
    exact refDesignator_search_nf h x.item s1

mutual

theorem selectedName_search_nf {σ T : Type} {S : Searcher σ T}
    (h : NeverFinds S) (n : SelectedName) (s : σ) :
    (SelectedName.search S n s).2 = SearchResult.NotFound := by
  cases n with
  | Selected pfx designator =>
    unfold SelectedName.search
    split
    · rename_i s1 value heq
      have := selectedName_searchPos_nf h pfx s
      rw [heq] at this
      exact absurd this (by simp)
    · rename_i s1 heq
      split
      · rename_i s2 value heq2
        have := posRefDesignator_search_nf h designator s1
        rw [heq2] at this
        exact absurd this (by simp)
      · rfl
  | Designator designator =>
    unfold SelectedName.search SearchState.or_not_found SearchState.or_else
    split
    · rename_i s1 result heq
      exact (h.desig s designator).finished_eq heq
    · rfl

theorem selectedName_searchPos_nf {σ T : Type} {S : Searcher σ T}
    (h : NeverFinds S) (x : WithPos SelectedName) (s : σ) :
    (SelectedName.searchPos S x s).2 = SearchResult.NotFound := by
  unfold SelectedName.searchPos
  split
  · rename_i s1 result heq
    exact (h.withpos s x.pos).finished_eq heq
  · rename_i s1 heq
    exact selectedName_search_nf h x.item s1

end

theorem subtypeIndication_search_nf {σ T : Type} {S : Searcher σ T}
    (h : NeverFinds S) (si : SubtypeIndication) (s : σ) :
    (SubtypeIndication.search S si s).2 = SearchResult.NotFound := by
  unfold SubtypeIndication.search SearchState.or_else
  split
  · rename_i s1 result heq
    exact (h.subtyp s si).finished_eq heq
  · rename_i s1 heq
    beta_reduce
    split
    · rename_i s2 value heq2
      have := selectedName_search_nf h si.type_mark s1
      rw [heq2] at this
      exact absurd this (by simp)
    · rfl

theorem elementDeclaration_searchList_nf {σ T : Type} {S : Searcher σ T}
    (h : NeverFinds S) (elems : List ElementDeclaration) (s : σ) :
    (ElementDeclaration.searchList S elems s).2 = SearchResult.NotFound := by
  induction elems generalizing s with
  | nil => rfl
  | cons x xs ih =>
    unfold ElementDeclaration.searchList
    split
    · rename_i s1 value heq
      have := subtypeIndication_search_nf h x.subtype s
      rw [heq] at this
      exact absurd this (by simp)
    · rename_i s1 heq
      exact ih s1

mutual

theorem declaration_search_nf {σ T : Type} {S : Searcher σ T}
    (h : NeverFinds S) (d : Declaration) (s : σ) :
    (Declaration.search S d s).2 = SearchResult.NotFound := by
  unfold Declaration.search
  split
  · rename_i s1 result heq
    exact (h.decl s d).finished_eq heq
  · rename_i s1 heq
    split
    · rename_i object
      exact subtypeIndication_search_nf h object.subtype_indication s1
    · rename_i typ
      exact typeDeclaration_search_nf h typ s1
    · rename_i body
      split
      · rename_i spec decls
        split
        · rename_i s2 value heq2
          have := subprogramDeclaration_search_nf h spec s1
          rw [heq2] at this
          exact absurd this (by simp)
        · rename_i s2 heq2
          split
          · rename_i s3 value heq3
            have := declaration_searchList_nf h decls s2
            rw [heq3] at this
            exact absurd this (by simp)
          · rfl
    · rename_i decl
      split
      · rename_i s2 value heq2
        have := subprogramDeclaration_search_nf h decl s1
        rw [heq2] at this
        exact absurd this (by simp)
      · rfl
    · rfl

theorem declaration_searchList_nf {σ T : Type} {S : Searcher σ T}
    (h : NeverFinds S) (ds : List Declaration) (s : σ) :
    (Declaration.searchList S ds s).2 = SearchResult.NotFound := by
  cases ds with
  | nil => rfl
  | cons x xs =>
    unfold Declaration.searchList
    split
    · rename_i s1 value heq
      have := declaration_search_nf h x s
      rw [heq] at this
      exact absurd this (by simp)
    · rename_i s1 heq
      exact declaration_searchList_nf h xs s1

theorem typeDeclaration_search_nf {σ T : Type} {S : Searcher σ T}
    (h : NeverFinds S) (typ : TypeDeclaration) (s : σ) :
    (TypeDeclaration.search S typ s).2 = SearchResult.NotFound := by
  cases typ with
  | mk td =>
    unfold TypeDeclaration.search
    split
    · rename_i decls
      split
      · rename_i s1 value heq
        have := declaration_searchList_nf h decls s
        rw [heq] at this
        exact absurd this (by simp)
      · rfl
    · rename_i items
      exact protectedItem_searchList_nf h items s
    · rename_i elems
      split
      · rename_i s1 value heq
        have := elementDeclaration_searchList_nf h elems s
        rw [heq] at this
        exact absurd this (by simp)
      · rfl
    · rename_i si
      split
      · rename_i s1 value heq
        have := subtypeIndication_search_nf h si s
        rw [heq] at this
        exact absurd this (by simp)
      · rfl
    · rename_i si
      split
      · rename_i s1 value heq
        have := subtypeIndication_search_nf h si s
        rw [heq] at this
        exact absurd this (by simp)
      · rfl
    · rename_i si
      split
      · rename_i s1 value heq
        have := subtypeIndication_search_nf h si s
        rw [heq] at this
        exact absurd this (by simp)
      · rfl
    · rfl

theorem protectedItem_searchList_nf {σ T : Type} {S : Searcher σ T}
    (h : NeverFinds S) (items : List ProtectedTypeDeclarativeItem) (s : σ) :
    (ProtectedTypeDeclarativeItem.searchList S items s).2 = SearchResult.NotFound := by
  cases items with
  | nil => rfl
  | cons x xs =>
    cases x with
    | Subprogram sub =>
      unfold ProtectedTypeDeclarativeItem.searchList
      split
      · rename_i s1 value heq
        have := subprogramDeclaration_search_nf h sub s
        rw [heq] at this
        exact absurd this (by simp)
      · rename_i s1 heq
        exact protectedItem_searchList_nf h xs s1

theorem subprogramDeclaration_search_nf {σ T : Type} {S : Searcher σ T}
    (h : NeverFinds S) (decl : SubprogramDeclaration) (s : σ) :
    (SubprogramDeclaration.search S decl s).2 = SearchResult.NotFound := by
  cases decl with
  | Function decl =>
    unfold SubprogramDeclaration.search
    split
    · rename_i s1 value heq
      have := functionSpecification_search_nf h decl s
      rw [heq] at this
      exact absurd this (by simp)
    · rfl
  | Procedure decl =>
    unfold SubprogramDeclaration.search
    split
    · rename_i s1 value heq
      have := procedureSpecification_search_nf h decl s
      rw [heq] at this
      exact absurd this (by simp)
    · rfl

theorem functionSpecification_search_nf {σ T : Type} {S : Searcher σ T}
    (h : NeverFinds S) (decl : FunctionSpecification) (s : σ) :
    (FunctionSpecification.search S decl s).2 = SearchResult.NotFound := by
  cases decl with
  | mk params ret =>
    unfold FunctionSpecification.search
    split
    · rename_i s1 value heq
      have := interfaceDeclaration_searchList_nf h params s
      rw [heq] at this
      exact absurd this (by simp)
    · rename_i s1 heq
      exact selectedName_search_nf h ret s1

theorem procedureSpecification_search_nf {σ T : Type} {S : Searcher σ T}
    (h : NeverFinds S) (decl : ProcedureSpecification) (s : σ) :
    (ProcedureSpecification.search S decl s).2 = SearchResult.NotFound := by
  cases decl with
  | mk params =>
    unfold ProcedureSpecification.search
    exact interfaceDeclaration_searchList_nf h params s

theorem interfaceDeclaration_search_nf {σ T : Type} {S : Searcher σ T}
    (h : NeverFinds S) (d : InterfaceDeclaration) (s : σ) :
    (InterfaceDeclaration.search S d s).2 = SearchResult.NotFound := by
  unfold InterfaceDeclaration.search
  split
  · rename_i s1 result heq
    exact (h.iface s d).finished_eq heq
  · rename_i s1 heq
    split
    · rename_i decl
      split
      · rename_i s2 value heq2
        have := subtypeIndication_search_nf h decl.subtype_indication s1
        rw [heq2] at this
        exact absurd this (by simp)
      · rfl
    · rename_i decl
      split
      · rename_i s2 value heq2
        have := subprogramDeclaration_search_nf h decl s1
        rw [heq2] at this
        exact absurd this (by simp)
      · rfl
    · rfl

theorem interfaceDeclaration_searchList_nf {σ T : Type} {S : Searcher σ T}
    (h : NeverFinds S) (ds : List InterfaceDeclaration) (s : σ) :
    (InterfaceDeclaration.searchList S ds s).2 = SearchResult.NotFound := by
  cases ds with
  | nil => rfl
  | cons x xs =>
    unfold InterfaceDeclaration.searchList
    split
    · rename_i s1 value heq
      have := interfaceDeclaration_search_nf h x s
      rw [heq] at this
      exact absurd this (by simp)
    · rename_i s1 heq
      exact interfaceDeclaration_searchList_nf h xs s1

end

theorem interfaceDeclaration_searchOptList_nf {σ T : Type} {S : Searcher σ T}
    (h : NeverFinds S) (ds : Option (List InterfaceDeclaration)) (s : σ) :
    (InterfaceDeclaration.searchOptList S ds s).2 = SearchResult.NotFound := by
  cases ds with
  | none => rfl
  | some xs => exact interfaceDeclaration_searchList_nf h xs s

mutual

theorem concStatement_search_nf {σ T : Type} {S : Searcher σ T}
    (h : NeverFinds S) (stmt : LabeledConcurrentStatement) (s : σ) :
    (LabeledConcurrentStatement.search S stmt s).2 = SearchResult.NotFound := by
  cases stmt with
  | mk cstmt =>
    unfold LabeledConcurrentStatement.search
    split
    · rename_i s1 result heq
      exact (h.conc s (LabeledConcurrentStatement.mk cstmt)).finished_eq heq
    · rename_i s1 heq
      split
      · rename_i block
        split
        · rename_i decls stmts
          split
          · rename_i s2 value heq2
            have := declaration_searchList_nf h decls s1
            rw [heq2] at this
            exact absurd this (by simp)
          · rename_i s2 heq2
            exact concStatement_searchList_nf h stmts s2
      · rename_i process
        split
        · rename_i decls stmts
          split
          · rename_i s2 value heq2
            have := declaration_searchList_nf h decls s1
            rw [heq2] at this
            exact absurd this (by simp)
          · rename_i s2 heq2
            exact seqStatement_searchList_nf h stmts s2
      · rename_i gen
        split
        · rename_i body
          exact generateBody_search_nf h body s1
      · rename_i gen
        split
        · rename_i conditionals else_item
          split
          · rename_i s2 value heq2
            have := generateBody_searchItems_nf h conditionals s1
            rw [heq2] at this
            exact absurd this (by simp)
          · rename_i s2 heq2
            exact generateBody_searchOpt_nf h else_item s2
      · rename_i gen
        split
        · rename_i alternatives
          exact generateBody_searchItems_nf h alternatives s1
      · rfl

theorem concStatement_searchList_nf {σ T : Type} {S : Searcher σ T}
    (h : NeverFinds S) (stmts : List LabeledConcurrentStatement) (s : σ) :
    (LabeledConcurrentStatement.searchList S stmts s).2 = SearchResult.NotFound := by
  cases stmts with
  | nil => rfl
  | cons x xs =>
    unfold LabeledConcurrentStatement.searchList
    split
    · rename_i s1 value heq
      have := concStatement_search_nf h x s
      rw [heq] at this
      exact absurd this (by simp)
    · rename_i s1 heq
      exact concStatement_searchList_nf h xs s1

theorem generateBody_search_nf {σ T : Type} {S : Searcher σ T}
    (h : NeverFinds S) (body : GenerateBody) (s : σ) :
    (GenerateBody.search S body s).2 = SearchResult.NotFound := by
  cases body with
  | mk odecl stmts =>
    unfold GenerateBody.search
    split
    · rename_i decls
      split
      · rename_i s1 value heq
        have := declaration_searchList_nf h decls s
        rw [heq] at this
        exact absurd this (by simp)
      · rename_i s1 heq
        exact concStatement_searchList_nf h stmts s1
    · exact concStatement_searchList_nf h stmts s

theorem generateBody_searchItems_nf {σ T : Type} {S : Searcher σ T}
    (h : NeverFinds S) (bodies : List GenerateBody) (s : σ) :
    (GenerateBody.searchItems S bodies s).2 = SearchResult.NotFound := by
  cases bodies with
  | nil => rfl
  | cons x xs =>
    unfold GenerateBody.searchItems
    split
    · rename_i s1 value heq
      have := generateBody_search_nf h x s
      rw [heq] at this
      exact absurd this (by simp)
    · rename_i s1 heq
      exact generateBody_searchItems_nf h xs s1

theorem generateBody_searchOpt_nf {σ T : Type} {S : Searcher σ T}
    (h : NeverFinds S) (obody : Option GenerateBody) (s : σ) :
    (GenerateBody.searchOpt S obody s).2 = SearchResult.NotFound := by
  cases obody with
  | some body => exact generateBody_search_nf h body s
  | none => rfl

end

theorem SearchState.or_else_notFinished {σ T : Type} (s : σ)
    (f : σ → σ × SearchResult T) :
    SearchState.or_else (s, SearchState.NotFinished) f = f s := rfl

theorem SearchState.or_else_finished {σ T : Type} (s : σ) (r : SearchResult T)
    (f : σ → σ × SearchResult T) :
    SearchState.or_else (s, SearchState.Finished r) f = (s, r) := rfl

theorem return_if_notFound {σ T : Type} (s : σ) (f : σ → σ × SearchResult T) :
    return_if (s, SearchResult.NotFound) f = f s := rfl

theorem return_if_found {σ T : Type} (s : σ) (value : T)
    (f : σ → σ × SearchResult T) :
    return_if (s, SearchResult.Found value) f = (s, SearchResult.Found value) := rfl

theorem entityUnit_search_order {σ T : Type} {S : Searcher σ T} (h : NeverFinds S)
    (u : EntityUnit) (s s0 : σ)
    (hsrc : S.search_source s u.source = (s0, SearchState.NotFinished)) :
    EntityUnit.search S u s =
      Declaration.searchList S u.unit.decl
        (LabeledConcurrentStatement.searchList S u.unit.statements
          (Declaration.searchList S u.unit.decl
            (InterfaceDeclaration.searchOptList S u.unit.port_clause
              (InterfaceDeclaration.searchOptList S u.unit.generic_clause s0).1).1).1).1 := by
  unfold EntityUnit.search
  rw [hsrc, SearchState.or_else_notFinished]
  rcases hg : InterfaceDeclaration.searchOptList S u.unit.generic_clause s0 with ⟨s1, r1⟩
  have hr1 : r1 = SearchResult.NotFound := by
    have := interfaceDeclaration_searchOptList_nf h u.unit.generic_clause s0
    rw [hg] at this; exact this
  subst hr1
  rw [return_if_notFound]
  dsimp only
  rcases hp : InterfaceDeclaration.searchOptList S u.unit.port_clause s1 with ⟨s2, r2⟩
  have hr2 : r2 = SearchResult.NotFound := by
    have := interfaceDeclaration_searchOptList_nf h u.unit.port_clause s1
    rw [hp] at this; exact this
  subst hr2
  rw [return_if_notFound]
  dsimp only
  rcases hd : Declaration.searchList S u.unit.decl s2 with ⟨s3, r3⟩
  have hr3 : r3 = SearchResult.NotFound := by
    have := declaration_searchList_nf h u.unit.decl s2
    rw [hd] at this; exact this
  subst hr3
  rw [return_if_notFound]
  dsimp only
  rcases hst : LabeledConcurrentStatement.searchList S u.unit.statements s3 with ⟨s4, r4⟩
  have hr4 : r4 = SearchResult.NotFound := by
    have := concStatement_searchList_nf h u.unit.statements s3
    rw [hst] at this; exact this
  subst hr4
  rw [return_if_notFound]

theorem architectureUnit_search_order {σ T : Type} {S : Searcher σ T}
    (h : NeverFinds S) (u : ArchitectureUnit) (s s0 : σ)
    (hsrc : S.search_source s u.source = (s0, SearchState.NotFinished)) :
    ArchitectureUnit.search S u s =
      Declaration.searchList S u.unit.decl
        (LabeledConcurrentStatement.searchList S u.unit.statements
          (Declaration.searchList S u.unit.decl s0).1).1 := by
  unfold ArchitectureUnit.search
  rw [hsrc, SearchState.or_else_notFinished]
  rcases hd : Declaration.searchList S u.unit.decl s0 with ⟨s1, r1⟩
  have hr1 : r1 = SearchResult.NotFound := by
    have := declaration_searchList_nf h u.unit.decl s0
    rw [hd] at this; exact this
  subst hr1
  rw [return_if_notFound]
  dsimp only
  rcases hst : LabeledConcurrentStatement.searchList S u.unit.statements s1 with ⟨s2, r2⟩
  have hr2 : r2 = SearchResult.NotFound := by
    have := concStatement_searchList_nf h u.unit.statements s1
    rw [hst] at this; exact this
  subst hr2
  rw [return_if_notFound]

theorem packageUnit_search_order {σ T : Type} {S : Searcher σ T}
    (h : NeverFinds S) (u : PackageUnit) (s s0 : σ)
    (hsrc : S.search_source s u.source = (s0, SearchState.NotFinished)) :
    PackageUnit.search S u s =
      Declaration.searchList S u.unit.decl
        (InterfaceDeclaration.searchOptList S u.unit.generic_clause s0).1 := by
  unfold PackageUnit.search
  rw [hsrc, SearchState.or_else_notFinished]
  rcases hg : InterfaceDeclaration.searchOptList S u.unit.generic_clause s0 with ⟨s1, r1⟩
  have hr1 : r1 = SearchResult.NotFound := by
    have := interfaceDeclaration_searchOptList_nf h u.unit.generic_clause s0
    rw [hg] at this; exact this
  subst hr1
  rw [return_if_notFound]

theorem packageBodyUnit_search_order {σ T : Type} (S : Searcher σ T)
    (u : PackageBodyUnit) (s s0 : σ)
    (hsrc : S.search_source s u.source = (s0, SearchState.NotFinished)) :
    PackageBodyUnit.search S u s = Declaration.searchList S u.unit.decl s0 := by
  unfold PackageBodyUnit.search
  rw [hsrc, SearchState.or_else_notFinished]

theorem packageInstanceUnit_search_order {σ T : Type} (S : Searcher σ T)
    (u : PackageInstanceUnit) (s s0 : σ)
    (hsrc : S.search_source s u.source = (s0, SearchState.NotFinished)) :
    PackageInstanceUnit.search S u s =
      SelectedName.searchPos S u.unit.package_name s0 := by
  unfold PackageInstanceUnit.search
  rw [hsrc, SearchState.or_else_notFinished]

theorem declCountingSearcher_neverFinds : NeverFinds declCountingSearcher := by
  constructor <;> intro s x value hcontra <;> simp [declCountingSearcher] at hcontra

theorem ifaceCountingSearcher_neverFinds : NeverFinds ifaceCountingSearcher := by
  constructor <;> intro s x value hcontra <;> simp [ifaceCountingSearcher] at hcontra

theorem declaration_hook_finished {σ T : Type} (S : Searcher σ T)
    (d : Declaration) (s s1 : σ) (r : SearchResult T)
    (heq : S.search_declaration s d = (s1, SearchState.Finished r)) :
    Declaration.search S d s = (s1, r) := by
  unfold Declaration.search
  rw [heq]

theorem declaration_hook_notFinished {σ T : Type} (S : Searcher σ T)
    (d : Declaration) (s s1 : σ)
    (heq : S.search_declaration s d = (s1, SearchState.NotFinished)) :
    Declaration.search S d s = Declaration.searchChildren S d s1 := by
  unfold Declaration.search Declaration.searchChildren
  rw [heq]

theorem concStatement_hook_finished {σ T : Type}
    (S : Searcher σ T) (stmt : LabeledConcurrentStatement) (s s1 : σ)
    (r : SearchResult T)
    (heq : S.search_labeled_concurrent_statement s stmt = (s1, SearchState.Finished r)) :
    LabeledConcurrentStatement.search S stmt s = (s1, r) := by
  cases stmt with
  | mk cstmt =>
    unfold LabeledConcurrentStatement.search
    rw [heq]

theorem concStatement_hook_notFinished {σ T : Type}
    (S : Searcher σ T) (stmt : LabeledConcurrentStatement) (s s1 : σ)
    (heq : S.search_labeled_concurrent_statement s stmt = (s1, SearchState.NotFinished)) :
    LabeledConcurrentStatement.search S stmt s =
      LabeledConcurrentStatement.searchChildren S stmt s1 := by
  cases stmt with
  | mk cstmt =>
    unfold LabeledConcurrentStatement.search LabeledConcurrentStatement.searchChildren
    rw [heq]

end ast

namespace analysis

open ast (Source SrcPos)

theorem libUpdate_name (root : DesignRoot) (lib : Library) :
    (libUpdate root lib).name = lib.name := rfl

theorem findEntity_update (root : DesignRoot) (lib : Library) (n : String) :
    findEntity (libUpdate root lib) n = findEntity lib n := by
  show ((lib.units.map (unitUpdate root lib)).findSome? _) = (lib.units.findSome? _)
  induction lib.units with
  | nil => rfl
  | cons u us ih =>
    rw [List.map_cons]
    cases u <;> simp only [List.findSome?, unitUpdate] <;> try exact ih
    case Entity e => split <;> simp_all

theorem findPackage_update (root : DesignRoot) (lib : Library) (n : String) :
    findPackage (libUpdate root lib) n = findPackage lib n := by
  show ((lib.units.map (unitUpdate root lib)).findSome? _) = (lib.units.findSome? _)
  induction lib.units with
  | nil => rfl
  | cons u us ih =>
    rw [List.map_cons]
    cases u <;> simp only [List.findSome?, unitUpdate] <;> try exact ih
    case Package p => split <;> simp_all

theorem findLibrary_update (root base : DesignRoot) (n : String) :
    findLibrary (base.map (libUpdate root)) n = (findLibrary base n).map (libUpdate root) := by
  induction base with
  | nil => rfl
  | cons lib libs ih =>
    show (((lib :: libs).map (libUpdate root)).findSome? _) = _
    rw [List.map_cons]
    simp only [findLibrary, List.findSome?] at ih ⊢
    rw [libUpdate_name]
    split <;> simp_all

theorem instTargetLibrary_update (root : DesignRoot) (lib : Library) (j : InstStmt) :
    instTargetLibrary (libUpdate root lib) j = instTargetLibrary lib j := rfl

theorem instEntity_update (root : DesignRoot) (lib : Library) (j : InstStmt) :
    instEntity (root.map (libUpdate root)) (libUpdate root lib) j =
      instEntity root lib j := by
  unfold instEntity
  rw [instTargetLibrary_update, findLibrary_update]
  cases findLibrary root (instTargetLibrary lib j) with
  | none => rfl
  | some target =>
    dsimp only [Option.map]
    rw [findEntity_update]

theorem archEntity_update (root : DesignRoot) (lib : Library) (a : ArchitectureDecl) :
    archEntity (libUpdate root lib) a = archEntity lib a := by
  unfold archEntity
  rw [findEntity_update]

theorem configOutcome_update (root : DesignRoot) (lib : Library) (c : ConfigurationDecl) :
    configOutcome (libUpdate root lib) c = configOutcome lib c := by
  unfold configOutcome configLookup
  rw [findEntity_update]
  rfl

theorem instDiags_update (root : DesignRoot) (lib : Library) (j : InstStmt) :
    instDiags (root.map (libUpdate root)) (libUpdate root lib) j =
      instDiags root lib j := by
  unfold instDiags
  rw [instEntity_update]
  rfl

theorem instRegs_update (root : DesignRoot) (lib : Library) (j : InstStmt) :
    instRegs (root.map (libUpdate root)) (libUpdate root lib) j =
      instRegs root lib j := by
  unfold instRegs
  rw [instEntity_update]

theorem instUpdate_update (root : DesignRoot) (lib : Library) (j : InstStmt) :
    instUpdate (root.map (libUpdate root)) (libUpdate root lib) j =
      instUpdate root lib j := by
  unfold instUpdate
  rw [instEntity_update]

theorem unitDiags_update (root : DesignRoot) (lib : Library) (u : AnyDesignUnit) :
    unitDiags (root.map (libUpdate root)) (libUpdate root lib) u =
      unitDiags root lib u := by
  cases u with
  | Entity e => rfl
  | Package p => rfl
  | PackageBody b =>
    simp only [unitDiags]
    rw [findPackage_update]
    rfl
  | Architecture a =>
    simp only [unitDiags]
    rw [archEntity_update,
      show instDiags (root.map (libUpdate root)) (libUpdate root lib) = instDiags root lib
        from funext (instDiags_update root lib)]
    rfl
  | Configuration c =>
    simp only [unitDiags]
    rw [configOutcome_update]
    rfl

theorem unitRegs_update (root : DesignRoot) (lib : Library) (u : AnyDesignUnit) :
    unitRegs (root.map (libUpdate root)) (libUpdate root lib) u =
      unitRegs root lib u := by
  cases u with
  | Entity e => rfl
  | Package p => rfl
  | PackageBody b =>
    simp only [unitRegs]
    rw [findPackage_update]
  | Architecture a =>
    simp only [unitRegs]
    rw [archEntity_update,
      show instRegs (root.map (libUpdate root)) (libUpdate root lib) = instRegs root lib
        from funext (instRegs_update root lib)]
  | Configuration c =>
    simp only [unitRegs]
    rw [configOutcome_update]

theorem unitUpdate_update (root : DesignRoot) (lib : Library) (u : AnyDesignUnit) :
    unitUpdate (root.map (libUpdate root)) (libUpdate root lib) u =
      unitUpdate root lib u := by
  cases u with
  | Entity e => rfl
  | Package p => rfl
  | PackageBody b =>
    simp only [unitUpdate]
    rw [findPackage_update]
  | Architecture a =>
    simp only [unitUpdate]
    rw [archEntity_update,
      show instUpdate (root.map (libUpdate root)) (libUpdate root lib) = instUpdate root lib
        from funext (instUpdate_update root lib)]
  | Configuration c =>
    simp only [unitUpdate]
    rw [configOutcome_update]

theorem instDiags_slot (root : DesignRoot) (lib : Library) (root' : DesignRoot)
    (lib' : Library) (i : InstStmt) :
    instDiags root lib (instUpdate root' lib' i) = instDiags root lib i := rfl

theorem instRegs_slot (root : DesignRoot) (lib : Library) (root' : DesignRoot)
    (lib' : Library) (i : InstStmt) :
    instRegs root lib (instUpdate root' lib' i) = instRegs root lib i := rfl

theorem instUpdate_slot (root : DesignRoot) (lib : Library) (root' : DesignRoot)
    (lib' : Library) (i : InstStmt) :
    instUpdate root lib (instUpdate root' lib' i) = instUpdate root lib i := rfl

theorem unitDiags_slot (root : DesignRoot) (lib : Library) (root' : DesignRoot)
    (lib' : Library) (u : AnyDesignUnit) :
    unitDiags root lib (unitUpdate root' lib' u) = unitDiags root lib u := by
  cases u with
  | Entity e => rfl
  | Package p => rfl
  | PackageBody b => rfl
  | Configuration c => rfl
  | Architecture a =>
    simp only [unitUpdate, unitDiags, List.map_map]
    rw [show (instDiags root lib ∘ instUpdate root' lib') = instDiags root lib
      from funext fun i => rfl]
    rfl

theorem unitRegs_slot (root : DesignRoot) (lib : Library) (root' : DesignRoot)
    (lib' : Library) (u : AnyDesignUnit) :
    unitRegs root lib (unitUpdate root' lib' u) = unitRegs root lib u := by
  cases u with
  | Entity e => rfl
  | Package p => rfl
  | PackageBody b => rfl
  | Configuration c => rfl
  | Architecture a =>
    simp only [unitUpdate, unitRegs, List.map_map]
    rw [show (instRegs root lib ∘ instUpdate root' lib') = instRegs root lib
      from funext fun i => rfl]
    rfl

theorem unitUpdate_slot (root : DesignRoot) (lib : Library) (root' : DesignRoot)
    (lib' : Library) (u : AnyDesignUnit) :
    unitUpdate root lib (unitUpdate root' lib' u) = unitUpdate root lib u := by
  cases u with
  | Entity e => rfl
  | Package p => rfl
  | PackageBody b => rfl
  | Configuration c => rfl
  | Architecture a =>
    simp only [unitUpdate, List.map_map]
    rw [show (instUpdate root lib ∘ instUpdate root' lib') = instUpdate root lib
      from funext fun i => rfl]
    rfl

theorem unitDiags_second (root : DesignRoot) (lib : Library) (u : AnyDesignUnit) :
    unitDiags (root.map (libUpdate root)) (libUpdate root lib) (unitUpdate root lib u) =
      unitDiags root lib u := by
  rw [unitDiags_update, unitDiags_slot]

theorem unitUpdate_second (root : DesignRoot) (lib : Library) (u : AnyDesignUnit) :
    unitUpdate (root.map (libUpdate root)) (libUpdate root lib) (unitUpdate root lib u) =
      unitUpdate root lib u := by
  rw [unitUpdate_update, unitUpdate_slot]

theorem libDiags_second (root : DesignRoot) (lib : Library) :
    libDiags (root.map (libUpdate root)) (libUpdate root lib) = libDiags root lib := by
  unfold libDiags
  rw [show (libUpdate root lib).units = lib.units.map (unitUpdate root lib) from rfl,
    List.map_map]
  rw [show (unitDiags (root.map (libUpdate root)) (libUpdate root lib)) ∘ (unitUpdate root lib)
      = unitDiags root lib from funext fun u => unitDiags_second root lib u]

theorem libUpdate_second (root : DesignRoot) (lib : Library) :
    libUpdate (root.map (libUpdate root)) (libUpdate root lib) = libUpdate root lib := by
  show ({ libUpdate root lib with
      units := (libUpdate root lib).units.map
        (unitUpdate (root.map (libUpdate root)) (libUpdate root lib)) } : Library) =
    libUpdate root lib
  rw [show (libUpdate root lib).units = lib.units.map (unitUpdate root lib) from rfl,
    List.map_map]
  rw [show (unitUpdate (root.map (libUpdate root)) (libUpdate root lib)) ∘ (unitUpdate root lib)
      = unitUpdate root lib from funext fun u => unitUpdate_second root lib u]
  rfl

theorem analyze_second (root : DesignRoot) : analyze (analyze root).2 = analyze root := by
  unfold analyze
  dsimp only
  rw [List.map_map, List.map_map]
  rw [show (libDiags (root.map (libUpdate root))) ∘ (libUpdate root) = libDiags root
      from funext fun lib => libDiags_second root lib,
    show (libUpdate (root.map (libUpdate root))) ∘ (libUpdate root) = libUpdate root
      from funext fun lib => libUpdate_second root lib]

theorem findSome_reg_self (p : SrcPos) (l : List (SrcPos × SrcPos))
    (hmem : (p, p) ∈ l)
    (hfun : ∀ qr ∈ l, qr.1 = p → qr.2 = p)
    (hdisj : ∀ qr ∈ l, qr.1 ≠ p →
      ¬(qr.1.source = p.source ∧ qr.1.start ≤ p.start ∧ p.start ≤ qr.1.endPos)) :
    (l.findSome? fun qr =>
      if qr.1.source = p.source ∧ qr.1.start ≤ p.start ∧ p.start ≤ qr.1.endPos then
        some qr.2
      else
        none) = some p := by
  induction l with
  | nil => cases hmem
  | cons qr t ih =>
    by_cases hq : qr.1 = p
    · have hr : qr.2 = p := hfun qr (List.mem_cons_self qr t) hq
      have hcond : qr.1.source = p.source ∧ qr.1.start ≤ p.start ∧ p.start ≤ qr.1.endPos := by
        rw [hq]
        exact ⟨rfl, Nat.le_refl _, Nat.le_add_right _ _⟩
      simp only [List.findSome?, if_pos hcond, hr]
    · have hcond := hdisj qr (List.mem_cons_self qr t) hq
      simp only [List.findSome?, if_neg hcond]
      apply ih
      · rcases List.mem_cons.mp hmem with h | h
        · exact absurd (congrArg Prod.fst h.symm) hq
        · exact h
      · exact fun qr' hm => hfun qr' (List.mem_cons_of_mem qr hm)
      · exact fun qr' hm => hdisj qr' (List.mem_cons_of_mem qr hm)

end analysis

/-- C1: for every searcher, the walk implements the short-circuit
semantics of search.rs: a hook answering Finished Found value stops the
walk at once with that value and with the searcher state exactly as the
hook left it, so no later sibling or remaining node is visited; an
element whose search ends NotFound lets the walk continue with its
siblings from the state it produced; a hook answering Finished r yields r
for the node without recursing into its children; a hook answering
NotFinished makes the framework recurse into the children with the same
searcher.  Stated for declaration nodes and concurrent-statement nodes
and their vectors. -/
theorem search_short_circuit_semantics :
    (∀ (σ T : Type) (S : ast.Searcher σ T) (x : ast.Declaration)
        (xs : List ast.Declaration) (s s1 : σ) (value : T),
        ast.Declaration.search S x s = (s1, ast.SearchResult.Found value) →
        ast.Declaration.searchList S (x :: xs) s = (s1, ast.SearchResult.Found value)) ∧
    (∀ (σ T : Type) (S : ast.Searcher σ T) (x : ast.Declaration)
        (xs : List ast.Declaration) (s s1 : σ),
        ast.Declaration.search S x s = (s1, ast.SearchResult.NotFound) →
        ast.Declaration.searchList S (x :: xs) s = ast.Declaration.searchList S xs s1) ∧
    (∀ (σ T : Type) (S : ast.Searcher σ T) (d : ast.Declaration) (s s1 : σ)
        (r : ast.SearchResult T),
        S.search_declaration s d = (s1, ast.SearchState.Finished r) →
        ast.Declaration.search S d s = (s1, r)) ∧
    (∀ (σ T : Type) (S : ast.Searcher σ T) (d : ast.Declaration) (s s1 : σ),
        S.search_declaration s d = (s1, ast.SearchState.NotFinished) →
        ast.Declaration.search S d s = ast.Declaration.searchChildren S d s1) ∧
    (∀ (σ T : Type) (S : ast.Searcher σ T) (x : ast.LabeledConcurrentStatement)
        (xs : List ast.LabeledConcurrentStatement) (s s1 : σ) (value : T),
        ast.LabeledConcurrentStatement.search S x s = (s1, ast.SearchResult.Found value) →
        ast.LabeledConcurrentStatement.searchList S (x :: xs) s =
          (s1, ast.SearchResult.Found value)) ∧
    (∀ (σ T : Type) (S : ast.Searcher σ T) (x : ast.LabeledConcurrentStatement)
        (xs : List ast.LabeledConcurrentStatement) (s s1 : σ),
        ast.LabeledConcurrentStatement.search S x s = (s1, ast.SearchResult.NotFound) →
        ast.LabeledConcurrentStatement.searchList S (x :: xs) s =
          ast.LabeledConcurrentStatement.searchList S xs s1) ∧
    (∀ (σ T : Type) (S : ast.Searcher σ T) (stmt : ast.LabeledConcurrentStatement)
        (s s1 : σ) (r : ast.SearchResult T),
        S.search_labeled_concurrent_statement s stmt = (s1, ast.SearchState.Finished r) →
        ast.LabeledConcurrentStatement.search S stmt s = (s1, r)) ∧
    (∀ (σ T : Type) (S : ast.Searcher σ T) (stmt : ast.LabeledConcurrentStatement)
        (s s1 : σ),
        S.search_labeled_concurrent_statement s stmt = (s1, ast.SearchState.NotFinished) →
        ast.LabeledConcurrentStatement.search S stmt s =
          ast.LabeledConcurrentStatement.searchChildren S stmt s1) := by
  refine ⟨?_, ?_, ?_, ?_, ?_, ?_, ?_, ?_⟩
  · intro σ T S x xs s s1 value h
    unfold ast.Declaration.searchList
    rw [h]
  · intro σ T S x xs s s1 h
    conv_lhs => unfold ast.Declaration.searchList
    rw [h]
  · intro σ T S d s s1 r h
    exact ast.declaration_hook_finished S d s s1 r h
  · intro σ T S d s s1 h
    exact ast.declaration_hook_notFinished S d s s1 h
  · intro σ T S x xs s s1 value h
    unfold ast.LabeledConcurrentStatement.searchList
    rw [h]
  · intro σ T S x xs s s1 h
    conv_lhs => unfold ast.LabeledConcurrentStatement.searchList
    rw [h]
  · intro σ T S stmt s s1 r h
    exact ast.concStatement_hook_finished S stmt s s1 r h
  · intro σ T S stmt s s1 h
    exact ast.concStatement_hook_notFinished S stmt s s1 h

/-- C1 witness: the short-circuit semantics evaluated on the sample
searcher at concrete declarations and statements. -/
theorem search_short_circuit_semantics_witness :
    ast.Declaration.searchList ast.sampleSearcher
      [ast.Declaration.Other, ast.Declaration.Other] 0 = (1, ast.SearchResult.Found 7) ∧
    ast.Declaration.searchList ast.sampleSearcher
      [ast.Declaration.Object ast.obj0, ast.Declaration.Other] 0 =
      ast.Declaration.searchList ast.sampleSearcher [ast.Declaration.Other] 1 ∧
    ast.Declaration.search ast.sampleSearcher ast.Declaration.Other 0 =
      (1, ast.SearchResult.Found 7) ∧
    ast.Declaration.search ast.sampleSearcher
      (ast.Declaration.TypeDecl (ast.TypeDeclaration.mk ast.TypeDefinition.Other)) 0 =
      ast.Declaration.searchChildren ast.sampleSearcher
        (ast.Declaration.TypeDecl (ast.TypeDeclaration.mk ast.TypeDefinition.Other)) 0 ∧
    ast.LabeledConcurrentStatement.searchList ast.sampleSearcher
      [ast.LabeledConcurrentStatement.mk ast.ConcurrentStatement.Other] 0 =
      (1, ast.SearchResult.Found 9) ∧
    ast.LabeledConcurrentStatement.search ast.sampleSearcher
      (ast.LabeledConcurrentStatement.mk
        (ast.ConcurrentStatement.Block (ast.BlockStatement.mk [] []))) 0 =
      ast.LabeledConcurrentStatement.searchChildren ast.sampleSearcher
        (ast.LabeledConcurrentStatement.mk
          (ast.ConcurrentStatement.Block (ast.BlockStatement.mk [] []))) 0 := by
  refine ⟨?_, ?_, ?_, ?_, ?_, ?_⟩
  · exact search_short_circuit_semantics.1 Nat Nat ast.sampleSearcher
      ast.Declaration.Other [ast.Declaration.Other] 0 1 7 rfl
  · exact search_short_circuit_semantics.2.1 Nat Nat ast.sampleSearcher
      (ast.Declaration.Object ast.obj0) [ast.Declaration.Other] 0 1 rfl
  · exact search_short_circuit_semantics.2.2.1 Nat Nat ast.sampleSearcher
      ast.Declaration.Other 0 1 (ast.SearchResult.Found 7) rfl
  · exact search_short_circuit_semantics.2.2.2.1 Nat Nat ast.sampleSearcher
      (ast.Declaration.TypeDecl (ast.TypeDeclaration.mk ast.TypeDefinition.Other)) 0 0 rfl
  · exact search_short_circuit_semantics.2.2.2.2.1 Nat Nat ast.sampleSearcher
      (ast.LabeledConcurrentStatement.mk ast.ConcurrentStatement.Other) [] 0 1 9 rfl
  · exact search_short_circuit_semantics.2.2.2.2.2.2.2 Nat Nat ast.sampleSearcher
      (ast.LabeledConcurrentStatement.mk
        (ast.ConcurrentStatement.Block (ast.BlockStatement.mk [] []))) 0 0 rfl

/-- C2 counterexample: the claim says each node is visited once and that
for a package only the declarations are walked; on the code, an entity
with one declaration and no statements invokes the declaration hook twice
(the counting searcher ends at 2, because lines 302 to 312 of search.rs
search the declarative part again after the statements), an architecture
does the same, and a package with a generic clause invokes the
interface-declaration hook on it. -/
theorem walk_order_single_visit_counterexample :
    ast.EntityUnit.search ast.declCountingSearcher ast.entSample 0 =
      (2, ast.SearchResult.NotFound) ∧
    ast.ArchitectureUnit.search ast.declCountingSearcher ast.archSample 0 =
      (2, ast.SearchResult.NotFound) ∧
    ast.PackageUnit.search ast.ifaceCountingSearcher ast.pkgSample 0 =
      (1, ast.SearchResult.NotFound) :=
  ⟨rfl, rfl, rfl⟩

/-- C2 amended: for every searcher whose hooks never finish with a value
and whose source hook lets the unit through, the traversal of a design
unit is the deterministic sequence: for an entity, generic clause, port
clause, declarations, statements, then the declarations a second time;
for an architecture, declarations, statements, then the declarations a
second time; for a package, generic clause then declarations; for a
package body, declarations; for a package instance, the name of the
instantiated package. -/
theorem design_unit_walk_order {σ T : Type} (S : ast.Searcher σ T)
    (h : ast.NeverFinds S) :
    (∀ (u : ast.EntityUnit) (s s0 : σ),
      S.search_source s u.source = (s0, ast.SearchState.NotFinished) →
      ast.EntityUnit.search S u s =
        ast.Declaration.searchList S u.unit.decl
          (ast.LabeledConcurrentStatement.searchList S u.unit.statements
            (ast.Declaration.searchList S u.unit.decl
              (ast.InterfaceDeclaration.searchOptList S u.unit.port_clause
                (ast.InterfaceDeclaration.searchOptList S
                  u.unit.generic_clause s0).1).1).1).1) ∧
    (∀ (u : ast.ArchitectureUnit) (s s0 : σ),
      S.search_source s u.source = (s0, ast.SearchState.NotFinished) →
      ast.ArchitectureUnit.search S u s =
        ast.Declaration.searchList S u.unit.decl
          (ast.LabeledConcurrentStatement.searchList S u.unit.statements
            (ast.Declaration.searchList S u.unit.decl s0).1).1) ∧
    (∀ (u : ast.PackageUnit) (s s0 : σ),
      S.search_source s u.source = (s0, ast.SearchState.NotFinished) →
      ast.PackageUnit.search S u s =
        ast.Declaration.searchList S u.unit.decl
          (ast.InterfaceDeclaration.searchOptList S u.unit.generic_clause s0).1) ∧
    (∀ (u : ast.PackageBodyUnit) (s s0 : σ),
      S.search_source s u.source = (s0, ast.SearchState.NotFinished) →
      ast.PackageBodyUnit.search S u s = ast.Declaration.searchList S u.unit.decl s0) ∧
    (∀ (u : ast.PackageInstanceUnit) (s s0 : σ),
      S.search_source s u.source = (s0, ast.SearchState.NotFinished) →
      ast.PackageInstanceUnit.search S u s =
        ast.SelectedName.searchPos S u.unit.package_name s0) :=
  ⟨fun u s s0 hsrc => ast.entityUnit_search_order h u s s0 hsrc,
   fun u s s0 hsrc => ast.architectureUnit_search_order h u s s0 hsrc,
   fun u s s0 hsrc => ast.packageUnit_search_order h u s s0 hsrc,
   fun u s s0 hsrc => ast.packageBodyUnit_search_order S u s s0 hsrc,
   fun u s s0 hsrc => ast.packageInstanceUnit_search_order S u s s0 hsrc⟩

/-- C2 witness: the amended walk order evaluated on the counting
searchers at the concrete sample units. -/
theorem design_unit_walk_order_witness :
    ast.EntityUnit.search ast.declCountingSearcher ast.entSample 0 =
      ast.Declaration.searchList ast.declCountingSearcher [ast.Declaration.Other] 1 ∧
    ast.ArchitectureUnit.search ast.declCountingSearcher ast.archSample 0 =
      ast.Declaration.searchList ast.declCountingSearcher [ast.Declaration.Other] 1 ∧
    ast.PackageUnit.search ast.ifaceCountingSearcher ast.pkgSample 0 =
      ast.Declaration.searchList ast.ifaceCountingSearcher [] 1 ∧
    ast.PackageBodyUnit.search ast.declCountingSearcher ast.pkgBodySample 0 =
      ast.Declaration.searchList ast.declCountingSearcher [ast.Declaration.Other] 0 ∧
    ast.PackageInstanceUnit.search ast.declCountingSearcher ast.pkgInstSample 0 =
      ast.SelectedName.searchPos ast.declCountingSearcher
        ast.pkgInstSample.unit.package_name 0 := by
  have hd := design_unit_walk_order ast.declCountingSearcher
    ast.declCountingSearcher_neverFinds
  have hi := design_unit_walk_order ast.ifaceCountingSearcher
    ast.ifaceCountingSearcher_neverFinds
  refine ⟨?_, ?_, ?_, ?_, ?_⟩
  · exact (hd.1 ast.entSample 0 0 rfl).trans rfl
  · exact (hd.2.1 ast.archSample 0 0 rfl).trans rfl
  · exact (hi.2.2.1 ast.pkgSample 0 0 rfl).trans rfl
  · exact (hd.2.2.2.1 ast.pkgBodySample 0 0 rfl).trans rfl
  · exact hd.2.2.2.2 ast.pkgInstSample 0 0 rfl

/-- C3: on scenario A, a library whose single file declares configuration
cfg of ent textually before entity ent, analyze yields exactly one
diagnostic, the error with the ordering message, positioned at the
identifier of the configuration; in particular no unresolved-name
diagnostic is produced although the entity exists later in the file. -/
theorem configuration_before_entity_scenario :
    (analysis.analyze analysis.rootC3).1 =
      [analysis.Diagnostic.error analysis.cfgC3.ident.pos
        ("Configuration " ++ analysis.quoted "cfg" ++ " declared before entity "
          ++ analysis.quoted "ent")] := by
  decide

/-- C4: on scenario D, an architecture instantiating both the missing
entity work.missing and the existing work.ename1, analyze yields exactly
one diagnostic, the no-primary-unit error at the missing identifier, and
the other statements still resolve: find-all-references on the
declaration of ename1 answers exactly its declaration position, the
architecture-header occurrence, and the instantiation occurrence. -/
theorem missing_entity_instance_scenario :
    (analysis.analyze analysis.rootC4).1 =
      [analysis.Diagnostic.error (⟨0, 173, 7⟩ : ast.SrcPos)
        ("No primary unit " ++ analysis.quoted "missing" ++ " within "
          ++ analysis.quoted "libname")] ∧
    analysis.find_all_references analysis.rootC4 analysis.ename1C4.ident.pos =
      [analysis.ename1C4.ident.pos, analysis.arch1C4.entity_name.pos,
       (⟨0, 203, 6⟩ : ast.SrcPos)] := by
  exact ⟨by decide, by decide⟩

/-- C5: on scenario C, a configuration in library libname naming the
entity through the foreign library lib2, analyze yields exactly one
diagnostic, the cross-library error, positioned at the full dotted name
lib2.ent. -/
theorem configuration_cross_library_scenario :
    (analysis.analyze analysis.rootC5).1 =
      [analysis.Diagnostic.error analysis.cfgC5.entity_name.fullPos
        ("Configuration must be within the same library " ++ analysis.quoted "libname"
          ++ " as the corresponding entity")] := by
  decide

/-- C6: every declaration the resolver registered as its own occurrence
is its own first reference: resolve-reference at the source and start
offset of its identifier answers its own position, provided the
occurrence table is well formed at that position (no other registered
span of the same source contains the offset, and the position carries
only the self registration) — the well-formedness the parser guarantees
for real input. -/
theorem declaration_self_reference (root : analysis.DesignRoot) (p : ast.SrcPos)
    (hreg : (p, p) ∈ analysis.regs root)
    (hfun : ∀ qr ∈ analysis.regs root, qr.1 = p → qr.2 = p)
    (hdisj : ∀ qr ∈ analysis.regs root, qr.1 ≠ p →
      ¬(qr.1.source = p.source ∧ qr.1.start ≤ p.start ∧ p.start ≤ qr.1.endPos)) :
    analysis.search_reference root p.source p.start = some p := by
  unfold analysis.search_reference
  exact analysis.findSome_reg_self p (analysis.regs root) hreg hfun hdisj

/-- C6 witness: in scenario E the package declaration of pkg registers
itself, and resolve-reference at its own identifier answers its own
position. -/
theorem declaration_self_reference_witness :
    ((⟨0, 9, 3⟩, ⟨0, 9, 3⟩) : ast.SrcPos × ast.SrcPos) ∈ analysis.regs analysis.rootE ∧
    analysis.search_reference analysis.rootE 0 9 = some (⟨0, 9, 3⟩ : ast.SrcPos) := by
  have h := declaration_self_reference analysis.rootE ⟨0, 9, 3⟩
    (by decide) (by decide) (by decide)
  exact ⟨by decide, h⟩

/-- C7: the cursor matching of the reference searcher is inclusive at
both ends: the with-pos hook keeps a subtree exactly when the position
start is at most the cursor and the cursor is at most the position end,
so a cursor exactly on the start or on the end boundary keeps the name
while one character beyond either end prunes the subtree of a with-pos
node, which then answers NotFound. -/
theorem reference_cursor_inclusive_bounds (rs : ast.ReferenceSearcher)
    (pos : ast.SrcPos) :
    (ast.ReferenceSearcher.searcher.search_with_pos rs pos =
        (rs, ast.SearchState.NotFinished) ↔
      pos.start ≤ rs.cursor ∧ rs.cursor ≤ pos.endPos) ∧
    (¬(pos.start ≤ rs.cursor ∧ rs.cursor ≤ pos.endPos) →
      ast.ReferenceSearcher.searcher.search_with_pos rs pos =
        (rs, ast.SearchState.Finished ast.SearchResult.NotFound)) ∧
    (rs.cursor = pos.start ∨ rs.cursor = pos.endPos →
      ast.ReferenceSearcher.searcher.search_with_pos rs pos =
        (rs, ast.SearchState.NotFinished)) ∧
    (rs.cursor + 1 = pos.start ∨ rs.cursor = pos.endPos + 1 →
      ast.ReferenceSearcher.searcher.search_with_pos rs pos =
        (rs, ast.SearchState.Finished ast.SearchResult.NotFound)) ∧
    (∀ (U : Type)
        (f : U → ast.ReferenceSearcher → ast.ReferenceSearcher × ast.SearchResult ast.SrcPos)
        (x : ast.WithPos U), x.pos = pos →
      (pos.start ≤ rs.cursor ∧ rs.cursor ≤ pos.endPos →
        ast.WithPos.search f ast.ReferenceSearcher.searcher x rs = f x.item rs) ∧
      (¬(pos.start ≤ rs.cursor ∧ rs.cursor ≤ pos.endPos) →
        ast.WithPos.search f ast.ReferenceSearcher.searcher x rs =
          (rs, ast.SearchResult.NotFound))) := by
  have hcase : ∀ hc : pos.start ≤ rs.cursor ∧ rs.cursor ≤ pos.endPos,
      ast.ReferenceSearcher.searcher.search_with_pos rs pos =
        (rs, ast.SearchState.NotFinished) := by
    intro hc
    simp [ast.ReferenceSearcher.searcher, if_pos hc]
  have hcase2 : ∀ _ : ¬(pos.start ≤ rs.cursor ∧ rs.cursor ≤ pos.endPos),
      ast.ReferenceSearcher.searcher.search_with_pos rs pos =
        (rs, ast.SearchState.Finished ast.SearchResult.NotFound) := by
    intro hc
    simp [ast.ReferenceSearcher.searcher, if_neg hc]
  refine ⟨⟨?_, hcase⟩, hcase2, ?_, ?_, ?_⟩
  · intro heq
    by_contra hc
    rw [hcase2 hc] at heq
    simp at heq
  · intro hb
    apply hcase
    rcases hb with hb | hb
    · exact ⟨Nat.le_of_eq hb.symm, by rw [hb]; exact Nat.le_add_right _ _⟩
    · exact ⟨by rw [hb]; exact Nat.le_add_right _ _, Nat.le_of_eq hb⟩
  · intro hb
    apply hcase2
    rcases hb with hb | hb
    · intro hc
      omega
    · intro hc
      omega
  · intro U f x hx
    constructor
    · intro hc
      show ast.SearchState.or_else
        (ast.ReferenceSearcher.searcher.search_with_pos rs x.pos)
        (fun s1 => f x.item s1) = f x.item rs
      rw [hx, hcase hc, ast.SearchState.or_else_notFinished]
    · intro hc
      show ast.SearchState.or_else
        (ast.ReferenceSearcher.searcher.search_with_pos rs x.pos)
        (fun s1 => f x.item s1) = (rs, ast.SearchResult.NotFound)
      rw [hx, hcase2 hc, ast.SearchState.or_else_finished]

/-- C7 witness: a three-character name at offsets 5 to 7, end boundary 8:
cursors 5 and 8 keep the subtree, cursors 4 and 9 prune it. -/
theorem reference_cursor_inclusive_bounds_witness :
    ast.ReferenceSearcher.searcher.search_with_pos (ast.ReferenceSearcher.new 0 5)
      (⟨0, 5, 3⟩ : ast.SrcPos) =
      (ast.ReferenceSearcher.new 0 5, ast.SearchState.NotFinished) ∧
    ast.ReferenceSearcher.searcher.search_with_pos (ast.ReferenceSearcher.new 0 8)
      (⟨0, 5, 3⟩ : ast.SrcPos) =
      (ast.ReferenceSearcher.new 0 8, ast.SearchState.NotFinished) ∧
    ast.ReferenceSearcher.searcher.search_with_pos (ast.ReferenceSearcher.new 0 4)
      (⟨0, 5, 3⟩ : ast.SrcPos) =
      (ast.ReferenceSearcher.new 0 4,
        ast.SearchState.Finished ast.SearchResult.NotFound) ∧
    ast.ReferenceSearcher.searcher.search_with_pos (ast.ReferenceSearcher.new 0 9)
      (⟨0, 5, 3⟩ : ast.SrcPos) =
      (ast.ReferenceSearcher.new 0 9,
        ast.SearchState.Finished ast.SearchResult.NotFound) := by
  refine ⟨?_, ?_, ?_, ?_⟩
  · exact (reference_cursor_inclusive_bounds (ast.ReferenceSearcher.new 0 5)
      ⟨0, 5, 3⟩).2.2.1 (Or.inl rfl)
  · exact (reference_cursor_inclusive_bounds (ast.ReferenceSearcher.new 0 8)
      ⟨0, 5, 3⟩).2.2.1 (Or.inr rfl)
  · exact (reference_cursor_inclusive_bounds (ast.ReferenceSearcher.new 0 4)
      ⟨0, 5, 3⟩).2.2.2.1 (Or.inl rfl)
  · exact (reference_cursor_inclusive_bounds (ast.ReferenceSearcher.new 0 9)
      ⟨0, 5, 3⟩).2.2.2.1 (Or.inr rfl)

/-- C8: the reference searcher terminates the walk at every
designator-with-reference node: the designator hook always answers
Finished, with the resolved position when the slot is filled and with
NotFound when it is unresolved; composed into the node search, the
outcome converted to an option is exactly the reference slot, so not
found is an absent value and never a failure. -/
theorem designator_ref_terminates_walk (rs : ast.ReferenceSearcher)
    (d : ast.WithRef ast.Designator) :
    (∀ p, d.reference = some p →
      ast.ReferenceSearcher.searcher.search_designator_ref rs d =
        (rs, ast.SearchState.Finished (ast.SearchResult.Found p)) ∧
      ast.WithRefDesignator.search ast.ReferenceSearcher.searcher d rs =
        (rs, ast.SearchResult.Found p)) ∧
    (d.reference = none →
      ast.ReferenceSearcher.searcher.search_designator_ref rs d =
        (rs, ast.SearchState.Finished ast.SearchResult.NotFound) ∧
      ast.WithRefDesignator.search ast.ReferenceSearcher.searcher d rs =
        (rs, ast.SearchResult.NotFound)) ∧
    (ast.WithRefDesignator.search ast.ReferenceSearcher.searcher d rs).2.into =
      d.reference := by
  obtain ⟨item, ref⟩ := d
  cases ref with
  | some q =>
    refine ⟨?_, ?_, rfl⟩
    · intro p hp
      injection hp with hq
      subst hq
      exact ⟨rfl, rfl⟩
    · intro hn
      simp at hn
  | none =>
    refine ⟨?_, ?_, rfl⟩
    · intro p hp
      simp at hp
    · intro _
      exact ⟨rfl, rfl⟩

/-- C8 witness: a resolved designator yields its stored position, an
unresolved one yields NotFound and the empty option. -/
theorem designator_ref_terminates_walk_witness :
    ast.WithRefDesignator.search ast.ReferenceSearcher.searcher
      { item := ast.Designator.Identifier "x",
        reference := some (⟨0, 1, 2⟩ : ast.SrcPos) }
      (ast.ReferenceSearcher.new 0 0) =
      (ast.ReferenceSearcher.new 0 0, ast.SearchResult.Found (⟨0, 1, 2⟩ : ast.SrcPos)) ∧
    ast.WithRefDesignator.search ast.ReferenceSearcher.searcher
      { item := ast.Designator.Identifier "y", reference := none }
      (ast.ReferenceSearcher.new 0 0) =
      (ast.ReferenceSearcher.new 0 0, ast.SearchResult.NotFound) ∧
    (ast.WithRefDesignator.search ast.ReferenceSearcher.searcher
      { item := ast.Designator.Identifier "y", reference := none }
      (ast.ReferenceSearcher.new 0 0)).2.into = none := by
  refine ⟨?_, ?_, ?_⟩
  · exact ((designator_ref_terminates_walk (ast.ReferenceSearcher.new 0 0)
      { item := ast.Designator.Identifier "x",
        reference := some ⟨0, 1, 2⟩ }).1 ⟨0, 1, 2⟩ rfl).2
  · exact ((designator_ref_terminates_walk (ast.ReferenceSearcher.new 0 0)
      { item := ast.Designator.Identifier "y", reference := none }).2.1 rfl).2
  · exact (designator_ref_terminates_walk (ast.ReferenceSearcher.new 0 0)
      { item := ast.Designator.Identifier "y", reference := none }).2.2

/-- C9: analyze is idempotent: running it again on the root it produced
yields the identical diagnostic list and the identical root, hence the
identical resolved position in every reference slot. -/
theorem analyze_idempotent (root : analysis.DesignRoot) :
    (analysis.analyze (analysis.analyze root).2).1 = (analysis.analyze root).1 ∧
    (analysis.analyze (analysis.analyze root).2).2 = (analysis.analyze root).2 := by
  have h := analysis.analyze_second root
  exact ⟨congrArg Prod.fst h, congrArg Prod.snd h⟩

/-- C10: for every searcher whose hooks never finish with a value (so the
walk runs to completion) and whose source hook lets the unit through, the
search of an entity unit and of an architecture unit runs over the
declarative part a second time after the statements: the walk ends with a
further search of the declaration list from the state the statements
produced, so every declaration hook fires twice in one walk. -/
theorem entity_architecture_decl_searched_twice {σ T : Type}
    (S : ast.Searcher σ T) (h : ast.NeverFinds S) :
    (∀ (u : ast.EntityUnit) (s s0 : σ),
      S.search_source s u.source = (s0, ast.SearchState.NotFinished) →
      ast.EntityUnit.search S u s =
        ast.Declaration.searchList S u.unit.decl
          (ast.LabeledConcurrentStatement.searchList S u.unit.statements
            (ast.Declaration.searchList S u.unit.decl
              (ast.InterfaceDeclaration.searchOptList S u.unit.port_clause
                (ast.InterfaceDeclaration.searchOptList S
                  u.unit.generic_clause s0).1).1).1).1) ∧
    (∀ (u : ast.ArchitectureUnit) (s s0 : σ),
      S.search_source s u.source = (s0, ast.SearchState.NotFinished) →
      ast.ArchitectureUnit.search S u s =
        ast.Declaration.searchList S u.unit.decl
          (ast.LabeledConcurrentStatement.searchList S u.unit.statements
            (ast.Declaration.searchList S u.unit.decl s0).1).1) :=
  ⟨fun u s s0 hsrc => ast.entityUnit_search_order h u s s0 hsrc,
   fun u s s0 hsrc => ast.architectureUnit_search_order h u s s0 hsrc⟩

/-- C10 witness: on the sample entity and architecture with one
declaration, the counting searcher observes two declaration hook
invocations in one walk. -/
theorem entity_architecture_decl_searched_twice_witness :
    (ast.EntityUnit.search ast.declCountingSearcher ast.entSample 0).1 = 2 ∧
    (ast.ArchitectureUnit.search ast.declCountingSearcher ast.archSample 0).1 = 2 := by
  have h := entity_architecture_decl_searched_twice ast.declCountingSearcher
    ast.declCountingSearcher_neverFinds
  exact ⟨(congrArg Prod.fst (h.1 ast.entSample 0 0 rfl)).trans rfl,
    (congrArg Prod.fst (h.2 ast.archSample 0 0 rfl)).trans rfl⟩

end vhdl
